import Mathlib

/-!
# Verification of the `anthill-core` tick engine

A shallow embedding of the deterministic simulation core of Langston's
Anthill (crate `anthill-core`): the data model (`types/*.rs`), the seeded
RNG (`rng.rs`), the event model (`events.rs`) and the tick engine
(`engine.rs`), together with theorems about the engine's documented
behaviour.

Modelling conventions:
* Rust `f64` amounts are modelled as exact rationals (`Rat`); the
  properties verified here do not depend on floating-point rounding.
* `HashMap<String, f64>` is modelled as an association list with
  replace-on-insert semantics (`RMap`); iteration order of the Rust map is
  unspecified, the list order plays that role here.
* `u64` arithmetic is Nat arithmetic with explicit `% 2^64` where the
  source uses wrapping operations.
* The ChaCha8 generator inside `SeededRng` is an external crate; only its
  pure-stream contract is relevant here, and it is modelled by a concrete
  pure word stream (see `chachaWord`).
-/

namespace Anthill

/-- `HashMap<String, f64>` model: an association list of resource names to
rational amounts. -/
abbrev RMap := List (String × Rat)

/-- Look up a key in an `RMap` (first binding wins, mirroring the unique-key
invariant of the Rust `HashMap`). -/
def RMap.find? (m : RMap) (k : String) : Option Rat :=
  match m with
  | [] => none
  | (k', v) :: rest => if k' = k then some v else RMap.find? rest k

/-- Value of a key, `0` when absent. -/
def RMap.getv (m : RMap) (k : String) : Rat :=
  match m.find? k with
  | some v => v
  | none => 0

/-- `HashMap::insert`: replace the first binding of `k`, or append a new one. -/
def RMap.insert (m : RMap) (k : String) (v : Rat) : RMap :=
  match m with
  | [] => [(k, v)]
  | (k', v') :: rest => if k' = k then (k, v) :: rest else (k', v') :: RMap.insert rest k v

/-- The keys of an `RMap`. -/
def RMap.keys (m : RMap) : List String := m.map Prod.fst

/-- `types/resource.rs` `Resources`: all resource amounts. -/
structure Resources where
  amounts : RMap
  deriving DecidableEq, Repr

/-- `Resources::new`. -/
def Resources.new : Resources := ⟨[]⟩

/-- `Resources::get`: the amount of a resource (`0.0` if not present). -/
def Resources.get (r : Resources) (name : String) : Rat :=
  r.amounts.getv name

/-- `Resources::set`. -/
def Resources.set (r : Resources) (name : String) (amount : Rat) : Resources :=
  ⟨r.amounts.insert name amount⟩

/-- `Resources::add`: add to a resource (delta can be negative). -/
def Resources.add (r : Resources) (name : String) (delta : Rat) : Resources :=
  ⟨r.amounts.insert name (r.get name + delta)⟩

/-- `Resources::has`: at least this much of a resource present. -/
def Resources.has (r : Resources) (name : String) (amount : Rat) : Bool :=
  decide (amount ≤ r.get name)

/-- `Resources::can_consume_all`. -/
def Resources.can_consume_all (r : Resources) (requirements : RMap) : Bool :=
  requirements.all fun p => r.has p.1 p.2

/-- `Resources::add_all`. -/
def Resources.add_all (r : Resources) (additions : RMap) : Resources :=
  additions.foldl (fun acc p => acc.add p.1 p.2) r

/-- A `serde_json::Value` model, for the opaque metadata the engine passes
through (only objects and unsigned integers are ever inspected). -/
inductive Json where
  | null
  | bool (b : Bool)
  | num (n : Int)
  | str (s : String)
  | arr (xs : List Json)
  | obj (fields : List (String × Json))

/-- `Value::get` on an object key (None on non-objects). -/
def Json.get (j : Json) (k : String) : Option Json :=
  match j with
  | .obj fields =>
    match fields.find? (fun p => p.1 == k) with
    | some p => some p.2
    | none => none
  | _ => none

/-- `Value::as_u64`. -/
def Json.as_u64 : Json → Option Nat
  | .num n => if 0 ≤ n then some n.toNat else none
  | _ => none

/-- Replace-or-append on a JSON object's field list. -/
def Json.setFields (fields : List (String × Json)) (k : String) (v : Json) :
    List (String × Json) :=
  match fields with
  | [] => [(k, v)]
  | (k', v') :: rest =>
    if k' = k then (k, v) :: rest else (k', v') :: Json.setFields rest k v

/-- `value[key] = v` on a JSON value: inserts into objects, auto-vivifies
`null` into an object (serde_json panics on the remaining cases; those are
unreachable for the object-valued goal records the engine writes to). -/
def Json.setField (j : Json) (k : String) (v : Json) : Json :=
  match j with
  | .obj fields => .obj (Json.setFields fields k v)
  | .null => .obj [(k, v)]
  | other => other

/-- `types/entity.rs` `EntityType`. -/
inductive EntityType where
  | ant
  | visitor
  deriving DecidableEq, Repr

/-- `types/entity.rs` `AntRole`. -/
inductive AntRole where
  | worker
  | undertaker
  deriving DecidableEq, Repr

/-- `types/entity.rs` `VisitorType`. -/
inductive VisitorType where
  | wanderer
  | observer
  | hungry
  deriving DecidableEq, Repr

/-- `types/entity.rs` `DeathCause`. -/
inductive DeathCause where
  | starvation
  | oldAge
  | blight
  deriving DecidableEq, Repr

/-- `types/entity.rs` `Entity`: one ant or visitor. -/
structure Entity where
  id : String
  entity_type : EntityType
  role : Option AntRole
  subtype : Option VisitorType
  name : Option String
  tile : String
  age : Nat
  hunger : Rat
  hunger_rate : Rat
  max_age : Nat
  food : Option String
  processing_corpse : Option Bool
  processing_ticks : Option Nat
  from_outside : Option Bool
  description : Option String
  gift_on_death : Option RMap
  generates : Option RMap
  transforms : Option Bool
  deriving DecidableEq, Repr

/-- `Entity::new_worker`. -/
def Entity.new_worker (id : String) (tile : String) : Entity where
  id := id
  entity_type := .ant
  role := some .worker
  subtype := none
  name := none
  tile := tile
  age := 0
  hunger := 100
  hunger_rate := 0.1
  max_age := 7200
  food := some "fungus"
  processing_corpse := none
  processing_ticks := none
  from_outside := none
  description := none
  gift_on_death := none
  generates := none
  transforms := none

/-- `Entity::new_undertaker`. -/
def Entity.new_undertaker (id : String) (tile : String) : Entity where
  id := id
  entity_type := .ant
  role := some .undertaker
  subtype := none
  name := none
  tile := tile
  age := 0
  hunger := 100
  hunger_rate := 0.15
  max_age := 7200
  food := some "fungus"
  processing_corpse := some false
  processing_ticks := some 0
  from_outside := none
  description := none
  gift_on_death := none
  generates := none
  transforms := none

/-- `Entity::new_wanderer`. -/
def Entity.new_wanderer (id : String) : Entity where
  id := id
  entity_type := .visitor
  role := none
  subtype := some .wanderer
  name := some "A Wanderer"
  tile := "receiver"
  age := 0
  hunger := 100
  hunger_rate := 0
  max_age := 1800
  food := none
  processing_corpse := none
  processing_ticks := none
  from_outside := some true
  description := some "Passes through. Leaves something behind."
  gift_on_death := some [("strange_matter", 1)]
  generates := none
  transforms := none

/-- `Entity::new_observer`. -/
def Entity.new_observer (id : String) : Entity where
  id := id
  entity_type := .visitor
  role := none
  subtype := some .observer
  name := some "An Observer"
  tile := "receiver"
  age := 0
  hunger := 100
  hunger_rate := 0.05
  max_age := 3600
  food := some "crystals"
  processing_corpse := none
  processing_ticks := none
  from_outside := some true
  description := some "Watches. Generates insight from the watching."
  gift_on_death := none
  generates := some [("insight", 0.001)]
  transforms := none

/-- `Entity::new_hungry`. -/
def Entity.new_hungry (id : String) : Entity where
  id := id
  entity_type := .visitor
  role := none
  subtype := some .hungry
  name := some "A Hungry Thing"
  tile := "receiver"
  age := 0
  hunger := 100
  hunger_rate := 0.5
  max_age := 900
  food := some "influence"
  processing_corpse := none
  processing_ticks := none
  from_outside := some true
  description := some "Consumes. Transforms what it consumes."
  gift_on_death := none
  generates := none
  transforms := some true

/-- `Entity::is_dead`. -/
def Entity.is_dead (e : Entity) : Bool :=
  decide (e.hunger ≤ 0) || decide (e.max_age ≤ e.age)

/-- `Entity::cause_of_death`. -/
def Entity.cause_of_death (e : Entity) : Option DeathCause :=
  if e.hunger ≤ 0 then some .starvation
  else if e.max_age ≤ e.age then some .oldAge
  else none

/-- `types/system.rs` `SystemType`. -/
inductive SystemType where
  | generator
  | converter
  | spawner
  | crafting
  | antenna
  deriving DecidableEq, Repr

/-- `types/system.rs` `CorpseBoost`: a time-boxed bonus from a processed corpse. -/
structure CorpseBoost where
  expires_at_tick : Nat
  bonus : Rat
  deriving DecidableEq, Repr

/-- `types/system.rs` `System`: a passive resource converter. -/
structure System where
  name : String
  system_type : SystemType
  generates : Option RMap
  consumes : Option RMap
  description : Option String
  corpse_boosts : List CorpseBoost
  original_generates : Option RMap
  original_consumes : Option RMap
  deriving DecidableEq, Repr

/-- `System::new_generator`. -/
def System.new_generator (name : String) (generates : RMap) : System where
  name := name
  system_type := .generator
  generates := some generates
  consumes := none
  description := none
  corpse_boosts := []
  original_generates := none
  original_consumes := none

/-- `System::new_converter`. -/
def System.new_converter (name : String) (consumes generates : RMap) : System where
  name := name
  system_type := .converter
  generates := some generates
  consumes := some consumes
  description := none
  corpse_boosts := []
  original_generates := none
  original_consumes := none

/-- `System::can_run`: the consumption requirements are currently satisfiable. -/
def System.can_run (sys : System) (resources : Resources) : Bool :=
  match sys.consumes with
  | some consumes => resources.can_consume_all consumes
  | none => true

/-- `System::total_corpse_bonus`. -/
def System.total_corpse_bonus (sys : System) (current_tick : Nat) : Rat :=
  ((sys.corpse_boosts.filter fun b => decide (current_tick < b.expires_at_tick)).map
    CorpseBoost.bonus).sum

/-- `System::expire_corpse_boosts`. -/
def System.expire_corpse_boosts (sys : System) (current_tick : Nat) : System :=
  { sys with corpse_boosts :=
      sys.corpse_boosts.filter fun b => decide (current_tick < b.expires_at_tick) }

/-- `System::disable`: stash the live rate maps (only if not already stashed). -/
def System.disable (sys : System) : System :=
  if sys.original_generates = none then
    { sys with
      original_generates := sys.generates
      original_consumes := sys.consumes
      generates := none
      consumes := none }
  else sys

/-- `System::enable`: restore stashed rate maps. -/
def System.enable (sys : System) : System :=
  let sys :=
    match sys.original_generates with
    | some orig => { sys with generates := some orig, original_generates := none }
    | none => sys
  match sys.original_consumes with
  | some orig => { sys with consumes := some orig, original_consumes := none }
  | none => sys

/-- `System::is_disabled`. -/
def System.is_disabled (sys : System) : Bool :=
  sys.original_generates.isSome

/-- `types/tile.rs` `TileType`. -/
inductive TileType where
  | empty
  | compost
  | extraction
  | production
  | resource
  | special
  | aesthetic
  | antenna
  deriving DecidableEq, Repr

/-- `types/tile.rs` `Tile`. -/
structure Tile where
  name : String
  tile_type : TileType
  x : Int
  y : Int
  contamination : Option Rat
  blighted : Option Bool
  blight_ticks_remaining : Option Nat
  resource : Option String
  description : Option String
  deriving DecidableEq, Repr

/-- `Tile::new_empty`. -/
def Tile.new_empty (name : String) (x y : Int) : Tile where
  name := name
  tile_type := .empty
  x := x
  y := y
  contamination := none
  blighted := none
  blight_ticks_remaining := none
  resource := none
  description := none

/-- `Tile::origin`. -/
def Tile.origin : Tile := Tile.new_empty "The Starting Dirt" 0 0

/-- `Tile::new_compost`. -/
def Tile.new_compost (name : String) (x y : Int) : Tile where
  name := name
  tile_type := .compost
  x := x
  y := y
  contamination := some 0
  blighted := some false
  blight_ticks_remaining := some 0
  resource := none
  description := none

/-- `Tile::is_blighted`. -/
def Tile.is_blighted (t : Tile) : Bool := t.blighted.getD false

/-- `Tile::add_contamination` (clamped above at `1.0`). -/
def Tile.add_contamination (t : Tile) (amount : Rat) : Tile :=
  { t with contamination := some (min (t.contamination.getD 0 + amount) 1) }

/-- `Tile::start_blight`. -/
def Tile.start_blight (t : Tile) (duration_ticks : Nat) : Tile :=
  { t with blighted := some true, blight_ticks_remaining := some duration_ticks }

/-- `Tile::tick_blight`: one tick of an active blight; `true` when the blight
just cleared (clearing also resets contamination to zero). -/
def Tile.tick_blight (t : Tile) : Bool × Tile :=
  if !t.is_blighted then (false, t)
  else
    let remaining := t.blight_ticks_remaining.getD 0
    if remaining ≤ 1 then
      (true, { t with
        blighted := some false
        blight_ticks_remaining := some 0
        contamination := some 0 })
    else (false, { t with blight_ticks_remaining := some (remaining - 1) })

/-- `types/tile.rs` `GameMap`: tiles by id, plus undirected connections. -/
structure GameMap where
  tiles : List (String × Tile)
  connections : List (String × String)
  deriving DecidableEq, Repr

/-- `GameMap::default`: just the `origin` tile. -/
def GameMap.default : GameMap where
  tiles := [("origin", Tile.origin)]
  connections := []

/-- `GameMap::get_tile`. -/
def GameMap.get_tile (m : GameMap) (id : String) : Option Tile :=
  match m.tiles.find? (fun p => p.1 == id) with
  | some p => some p.2
  | none => none

/-- Write back a tile (models mutation through `get_tile_mut`). -/
def GameMap.set_tile (m : GameMap) (id : String) (t : Tile) : GameMap :=
  { m with tiles := m.tiles.map fun p => if p.1 = id then (p.1, t) else p }

/-- `types/graveyard.rs` `Corpse`. -/
structure Corpse where
  entity_id : String
  entity_type : String
  death_tick : Nat
  cause : DeathCause
  tile : String
  deriving DecidableEq, Repr

/-- `types/graveyard.rs` `Graveyard`. -/
structure Graveyard where
  corpses : List Corpse
  total_processed : Nat
  deriving DecidableEq, Repr

/-- `Graveyard::default`. -/
def Graveyard.default : Graveyard := ⟨[], 0⟩

/-- `Graveyard::add_corpse`. -/
def Graveyard.add_corpse (g : Graveyard) (c : Corpse) : Graveyard :=
  { g with corpses := g.corpses ++ [c] }

/-- `Graveyard::take_corpse`: pop the oldest (front) corpse. -/
def Graveyard.take_corpse (g : Graveyard) : Option Corpse × Graveyard :=
  match g.corpses with
  | [] => (none, g)
  | c :: rest => (some c, { g with corpses := rest })

/-- `Graveyard::mark_processed`. -/
def Graveyard.mark_processed (g : Graveyard) : Graveyard :=
  { g with total_processed := g.total_processed + 1 }

/-- `Graveyard::has_corpses`. -/
def Graveyard.has_corpses (g : Graveyard) : Bool := !g.corpses.isEmpty

/-- `types/action.rs` `ActionEffects`. -/
structure ActionEffects where
  resources : Option RMap
  deriving DecidableEq, Repr

/-- `types/action.rs` `Action`. -/
structure Action where
  id : String
  action_type : String
  ticks_remaining : Nat
  effects : Option ActionEffects
  deriving DecidableEq, Repr

/-- `types/action.rs` `Queues`: pending actions plus the opaque pending-event
list owned by the plugin layer (the engine only tests its emptiness). -/
structure Queues where
  actions : List Action
  events : List Json

/-- `Queues::default`. -/
def Queues.default : Queues := ⟨[], []⟩

/-- `Queues::has_actions`. -/
def Queues.has_actions (q : Queues) : Bool := !q.actions.isEmpty

/-- `types/state.rs` `Meta`: non-simulation bookkeeping. -/
structure Meta where
  boredom : Nat
  recent_decisions : List Json
  rejected_ideas : List String
  fired_cards : List String
  estate : Option Json
  decor : List Json
  jewelry : List Json
  goals : List (String × Json)
  reflections : List Json
  sanity : Rat
  receiver_silent : Bool
  receiver_failed_tick : Option Nat

/-- `Meta::default`. -/
def Meta.default : Meta where
  boredom := 0
  recent_decisions := []
  rejected_ideas := []
  fired_cards := []
  estate := none
  decor := []
  jewelry := []
  goals := []
  reflections := []
  sanity := 100
  receiver_silent := false
  receiver_failed_tick := none

/-- `types/state.rs` `GameState`: the complete snapshot. -/
structure GameState where
  tick : Nat
  resources : Resources
  systems : List (String × System)
  entities : List Entity
  map : GameMap
  queues : Queues
  meta : Meta
  graveyard : Graveyard
  last_save_timestamp : Option Rat

/-- `GameState::default`. -/
def GameState.default : GameState where
  tick := 0
  resources := Resources.new
  systems := []
  entities := []
  map := GameMap.default
  queues := Queues.default
  meta := Meta.default
  graveyard := Graveyard.default
  last_save_timestamp := none

/-- `GameState::has_system`. -/
def GameState.has_system (s : GameState) (system_id : String) : Bool :=
  (s.systems.find? (fun p => p.1 == system_id)).isSome

/-- Look up a system by id (models `state.systems.get(..)`). -/
def GameState.get_system (s : GameState) (system_id : String) : Option System :=
  match s.systems.find? (fun p => p.1 == system_id) with
  | some p => some p.2
  | none => none

/-- Write back a system by id (models mutation through `systems.get_mut`). -/
def GameState.set_system (s : GameState) (system_id : String) (sys : System) : GameState :=
  { s with systems := s.systems.map fun p => if p.1 = system_id then (p.1, sys) else p }

/-! ## Seeded RNG (`rng.rs`) -/

/-- `2^64`, the modulus of all wrapping `u64` arithmetic. -/
def u64Mod : Nat := 18446744073709551616

/-- Modelled from the spec: the spec guarantees only that the external ChaCha8
generator "produces a reproducible pseudo-random stream from a seed" whose
entire output is "a pure function of that seed" (§4.1); the concrete cipher
lives in the external `rand_chacha` crate, not in this repository. This is a
concrete pure stand-in stream of 64-bit words. -/
def chachaWord (seed pos : Nat) : Nat :=
  ((seed + 11400714819323198485) * (2 * pos + 2685821657736338717) + pos * pos) % u64Mod

/-- `rng.rs` `SeededRng`: the generator state — the underlying stream position
models the ChaCha8 cipher state, `calls` is the diagnostic draw counter. -/
structure SeededRng where
  seed : Nat
  stream_pos : Nat
  calls : Nat
  deriving DecidableEq, Repr

/-- `SeededRng::new`. -/
def SeededRng.new (seed : Nat) : SeededRng :=
  ⟨seed % u64Mod, 0, 0⟩

/-- `SeededRng::from_tick`: per-tick seed
`base_seed.wrapping_add(tick.wrapping_mul(2654435761))`. -/
def SeededRng.from_tick (base_seed tick : Nat) : SeededRng :=
  SeededRng.new ((base_seed + tick * 2654435761 % u64Mod) % u64Mod)

/-- Draw the next raw 64-bit word from the underlying stream. -/
def SeededRng.nextWord (r : SeededRng) : Nat × SeededRng :=
  (chachaWord r.seed r.stream_pos, { r with stream_pos := r.stream_pos + 1 })

/-- `SeededRng::chance`: boolean draw with probability clamped to `[0,1]`. -/
def SeededRng.chance (r : SeededRng) (probability : Rat) : Bool × SeededRng :=
  let r := { r with calls := r.calls + 1 }
  let (w, r) := r.nextWord
  (decide ((w : Rat) / (u64Mod : Rat) < min (max probability 0) 1), r)

/-- `SeededRng::random`: uniform draw in `[0,1)`. -/
def SeededRng.random (r : SeededRng) : Rat × SeededRng :=
  let r := { r with calls := r.calls + 1 }
  let (w, r) := r.nextWord
  ((w : Rat) / (u64Mod : Rat), r)

/-- `SeededRng::range`: uniform integer in the inclusive range `[lo, hi]`. -/
def SeededRng.range (r : SeededRng) (lo hi : Nat) : Nat × SeededRng :=
  let r := { r with calls := r.calls + 1 }
  let (w, r) := r.nextWord
  (lo + w % (hi + 1 - lo), r)

/-- `SeededRng::choose_index`: uniform index over a length, `none` for zero
length (note: the early return for length zero skips the `calls` increment). -/
def SeededRng.choose_index (r : SeededRng) (len : Nat) : Option Nat × SeededRng :=
  if len = 0 then (none, r)
  else
    let r := { r with calls := r.calls + 1 }
    let (w, r) := r.nextWord
    (some (w % len), r)

/-- A lowercase hex digit. -/
def hexChar (n : Nat) : Char :=
  if n < 10 then Char.ofNat (48 + n) else Char.ofNat (87 + n)

/-- Fixed-width lowercase hex rendering (`format` with `{:0wx}`). -/
def hexDigits : Nat → Nat → List Char
  | 0, _ => []
  | width + 1, n => hexDigits width (n / 16) ++ [hexChar (n % 16)]

/-- `SeededRng::entity_id`: 8 hex chars of a random `u32`. -/
def SeededRng.entity_id (r : SeededRng) : String × SeededRng :=
  let r := { r with calls := r.calls + 1 }
  let (w, r) := r.nextWord
  (String.mk (hexDigits 8 (w % 4294967296)), r)

/-- `SeededRng::visitor_id`: `v_` followed by 6 hex chars of a masked `u32`. -/
def SeededRng.visitor_id (r : SeededRng) : String × SeededRng :=
  let r := { r with calls := r.calls + 1 }
  let (w, r) := r.nextWord
  ("v_" ++ String.mk (hexDigits 6 (w % 4294967296 % 16777216)), r)

/-! ## Events (`events.rs`) -/

/-- `events.rs` `EventKind`: every event the engine can emit. -/
inductive EventKind where
  | entityDied (entity_id : String) (entity_type : String) (cause : DeathCause) (tile : String)
  | entityAte (entity_id : String) (food : String) (hunger_after : Rat)
  | thresholdCrossed (resource : String) (threshold : Rat) (current : Rat)
  | actionComplete (action_id : String) (action_type : String)
  | systemProduced (system_id : String) (produced : RMap) (consumed : RMap)
  | corpseProcessed (undertaker_id : String) (total_processed : Nat) (contamination : Rat)
  | blightStruck (tile : String) (contamination : Rat) (duration_ticks : Nat)
  | blightCleared (tile : String)
  | blightKill (entity_id : String) (tile : String)
  | antsSpawned (worker_id undertaker_id : String) (nutrients_consumed fungus_consumed : Rat)
  | emergencySpawn (worker_id undertaker_id : String)
  | visitorArrived (visitor_id : String) (visitor_type : VisitorType) (name : String)
  | visitorDeparted (visitor_id : String) (visitor_type : VisitorType) (name : String)
      (gift : Option RMap)
  | influenceSpent (amount : Rat) (success : Bool)
  | summoningFailed
  | receiverSilent
  | receiverRestored
  | passiveGeneration (entity_id : String) (resource : String) (amount : Rat)
  | influenceTransformed (visitor_id : String) (influence_consumed strange_matter_produced : Rat)
  | boredomHigh (level : Nat)
  | sanityChanged (delta new_value : Rat) (reason : String)
  deriving DecidableEq, Repr

/-- `events.rs` `Event`: an event kind stamped with its tick. -/
structure Event where
  tick : Nat
  kind : EventKind
  deriving DecidableEq, Repr

/-- `TickEvents` is a plain ordered list here. -/
abbrev TickEvents := List Event

/-! ## Engine constants (`engine.rs` `mod constants`) -/

def DEFAULT_MAX_AGE : Nat := 7200
def HUNGER_THRESHOLD_EAT : Rat := 50
def HUNGER_GAIN_FROM_EATING : Rat := 30
def MAX_HUNGER : Rat := 100
def SPAWN_INTERVAL_TICKS : Nat := 1800
def SPAWN_COST_NUTRIENTS : Rat := 10
def SPAWN_COST_FUNGUS : Rat := 10
def MIN_RESOURCES_TO_SPAWN : Rat := 15
def CORPSE_PROCESSING_TICKS : Nat := 120
def CORPSE_NUTRIENT_BOOST : Rat := 0.1
def CORPSE_BOOST_DURATION : Nat := 600
def CONTAMINATION_PER_CORPSE : Rat := 0.01
def BLIGHT_DURATION : Nat := 300
def SUMMON_COST : Rat := 2
def SUMMON_COOLDOWN : Nat := 600
def SUMMON_CHANCE : Rat := 0.3
def LISTENING_DRAIN : Rat := 0.0005
def MAINTENANCE_INTERVAL : Nat := 3600
def MAINTENANCE_COST_STRANGE_MATTER : Rat := 1
def HUNGRY_INFLUENCE_CONSUME : Rat := 0.1
def HUNGRY_STRANGE_MATTER_PRODUCE : Rat := 0.05
def HUNGRY_HUNGER_GAIN : Rat := 20
def BOREDOM_THRESHOLD : Nat := 60
def RESOURCE_THRESHOLDS : List Rat := [10, 25, 50, 100, 250, 500, 1000]
def MAX_OFFLINE_TICKS : Nat := 3600

/-! ## Tick engine (`engine.rs`) -/

/-- `engine.rs` `TickEngine`: seed plus spawn/summon bookkeeping. -/
structure TickEngine where
  seed : Nat
  last_spawn_tick : Nat
  last_summon_tick : Nat
  deriving DecidableEq, Repr

/-- `TickEngine::new`. -/
def TickEngine.new (seed : Nat) : TickEngine := ⟨seed, 0, 0⟩

/-- Phase 1 loop body over the drained action queue: completed actions emit an
event and apply their resource effects, the rest tick down and are retained. -/
def actionsLoop (tick : Nat) (res : Resources) :
    List Action → Resources × List Action × TickEvents
  | [] => (res, [], [])
  | a :: rest =>
    if a.ticks_remaining ≤ 1 then
      let res :=
        match a.effects with
        | some eff =>
          match eff.resources with
          | some rs => res.add_all rs
          | none => res
        | none => res
      let (res', remaining, evs) := actionsLoop tick res rest
      (res', remaining, ⟨tick, .actionComplete a.id a.action_type⟩ :: evs)
    else
      let (res', remaining, evs) := actionsLoop tick res rest
      (res', { a with ticks_remaining := a.ticks_remaining - 1 } :: remaining, evs)

/-- `TickEngine::process_actions` (phase 1). -/
def process_actions (s : GameState) : GameState × TickEvents :=
  let (res, remaining, evs) := actionsLoop s.tick s.resources s.queues.actions
  ({ s with resources := res, queues := { s.queues with actions := remaining } }, evs)

/-- Phase 2, step one: collect the `(id, consumes, generates)` operations of
every enabled system whose requirements are satisfiable against the
phase-entry resources; the compost heap's generates get the corpse bonus. -/
def systemOperations (s : GameState) : List (String × RMap × RMap) :=
  s.systems.filterMap fun p =>
    let (id, sys) := p
    if sys.is_disabled then none
    else if !sys.can_run s.resources then none
    else
      let consumes := sys.consumes.getD []
      let generates := sys.generates.getD []
      let generates :=
        if id = "compost_heap" then
          let bonus := sys.total_corpse_bonus s.tick
          if 0 < bonus then generates.insert "nutrients" (generates.getv "nutrients" + bonus)
          else generates
        else generates
      some (id, consumes, generates)

/-- Phase 2, step two: apply the collected operations in order, emitting a
`SystemProduced` event for each operation with a nonempty map. -/
def applyOperations (tick : Nat) (res : Resources) :
    List (String × RMap × RMap) → Resources × TickEvents
  | [] => (res, [])
  | (id, consumes, generates) :: rest =>
    let res := consumes.foldl (fun r p => r.add p.1 (-p.2)) res
    let res := generates.foldl (fun r p => r.add p.1 p.2) res
    let evs :=
      if !consumes.isEmpty || !generates.isEmpty then
        [Event.mk tick (.systemProduced id generates consumes)]
      else []
    let (res', evs') := applyOperations tick res rest
    (res', evs ++ evs')

/-- `TickEngine::process_systems` (phase 2). -/
def process_systems (s : GameState) : GameState × TickEvents :=
  let (res, evs) := applyOperations s.tick s.resources (systemOperations s)
  let systems := s.systems.map fun p => (p.1, p.2.expire_corpse_boosts s.tick)
  ({ s with resources := res, systems := systems }, evs)

/-- Phase 3, per entity: age, deplete hunger, and try to eat when below the
threshold (with the hungry-visitor influence special case). -/
def entityLifeStep (tick : Nat) (res : Resources) (e : Entity) :
    Entity × Resources × TickEvents :=
  let e := { e with age := e.age + 1, hunger := e.hunger - e.hunger_rate }
  if e.hunger < HUNGER_THRESHOLD_EAT then
    match e.food with
    | some food =>
      if food = "influence" ∧ e.subtype = some .hungry then
        if HUNGRY_INFLUENCE_CONSUME ≤ res.get "influence" then
          let res := res.add "influence" (-HUNGRY_INFLUENCE_CONSUME)
          let e := { e with hunger := min (e.hunger + HUNGRY_HUNGER_GAIN) MAX_HUNGER }
          if e.transforms = some true then
            (e, res.add "strange_matter" HUNGRY_STRANGE_MATTER_PRODUCE,
              [⟨tick, .influenceTransformed e.id HUNGRY_INFLUENCE_CONSUME
                  HUNGRY_STRANGE_MATTER_PRODUCE⟩])
          else (e, res, [])
        else (e, res, [])
      else if 1 ≤ res.get food then
        let res := res.add food (-1)
        let e := { e with hunger := min (e.hunger + HUNGER_GAIN_FROM_EATING) MAX_HUNGER }
        (e, res, [⟨tick, .entityAte e.id food e.hunger⟩])
      else (e, res, [])
    | none => (e, res, [])
  else (e, res, [])

/-- The lowercase `format!` label of an entity type. -/
def entityTypeLabel : EntityType → String
  | .ant => "ant"
  | .visitor => "visitor"

/-- Phase 3, per entity: the death check after aging/eating. Dead visitors
depart (depositing any death-gift); dead ants become graveyard corpses. -/
def entityDeathStep (tick : Nat) (res : Resources) (gy : Graveyard) (e : Entity) :
    Option Entity × Resources × Graveyard × TickEvents :=
  match e.cause_of_death with
  | some cause =>
    if e.entity_type = .visitor then
      let res :=
        match e.gift_on_death with
        | some g => res.add_all g
        | none => res
      (none, res, gy,
        [⟨tick, .visitorDeparted e.id (e.subtype.getD .wanderer) (e.name.getD "")
            e.gift_on_death⟩])
    else
      (none, res,
        gy.add_corpse ⟨e.id, entityTypeLabel e.entity_type, tick, cause, e.tile⟩,
        [⟨tick, .entityDied e.id (entityTypeLabel e.entity_type) cause e.tile⟩])
  | none => (some e, res, gy, [])

/-- Phase 3 loop over the drained entity list. -/
def entitiesLoop (tick : Nat) (res : Resources) (gy : Graveyard) :
    List Entity → Resources × Graveyard × List Entity × TickEvents
  | [] => (res, gy, [], [])
  | e :: rest =>
    let (e, res, evs₁) := entityLifeStep tick res e
    let (kept, res, gy, evs₂) := entityDeathStep tick res gy e
    let (res', gy', surviving, evs') := entitiesLoop tick res gy rest
    let surviving :=
      match kept with
      | some e' => e' :: surviving
      | none => surviving
    (res', gy', surviving, evs₁ ++ evs₂ ++ evs')

/-- `TickEngine::process_entities` (phase 3). -/
def process_entities (s : GameState) : GameState × TickEvents :=
  let (res, gy, surviving, evs) := entitiesLoop s.tick s.resources s.graveyard s.entities
  ({ s with resources := res, graveyard := gy, entities := surviving }, evs)

/-- Replace the first entity whose id matches (models `iter_mut().find(..)`). -/
def updateEntityFirst (es : List Entity) (uid : String) (e' : Entity) : List Entity :=
  match es with
  | [] => []
  | e :: rest => if e.id = uid then e' :: rest else e :: updateEntityFirst rest uid e'

/-- Phase 4, completion step: add the time-boxed nutrient boost to the
compost-heap system if it exists. -/
def addCompostBoost (s : GameState) : GameState :=
  match s.get_system "compost_heap" with
  | some sys =>
    s.set_system "compost_heap"
      { sys with corpse_boosts := sys.corpse_boosts ++
          [CorpseBoost.mk (s.tick + CORPSE_BOOST_DURATION) CORPSE_NUTRIENT_BOOST] }
  | none => s

/-- Phase 4, body of the per-undertaker loop. -/
def undertakerStep (s : GameState) (uid : String) : GameState × TickEvents :=
  let tick := s.tick
  match s.entities.find? (fun e => e.id == uid) with
  | none => (s, [])
  | some u =>
    let processing := u.processing_corpse.getD false
    let ticks := u.processing_ticks.getD 0
    if processing then
      let s := { s with entities :=
        updateEntityFirst s.entities uid { u with processing_ticks := some (ticks + 1) } }
      if CORPSE_PROCESSING_TICKS ≤ ticks + 1 then
        let u' := { u with processing_corpse := some false, processing_ticks := some 0 }
        let s := { s with entities := updateEntityFirst s.entities uid u' }
        let s := addCompostBoost s
        match s.map.get_tile "compost" with
        | some tl =>
          let tl := tl.add_contamination CONTAMINATION_PER_CORPSE
          let s := { s with map := s.map.set_tile "compost" tl }
          let contamination := tl.contamination.getD 0
          let s := { s with graveyard := s.graveyard.mark_processed }
          (s, [⟨tick, .corpseProcessed uid s.graveyard.total_processed contamination⟩])
        | none => (s, [])
      else (s, [])
    else if s.graveyard.has_corpses then
      let s := { s with graveyard := s.graveyard.take_corpse.2 }
      let u' := { u with processing_corpse := some true, processing_ticks := some 0 }
      let s := { s with entities := updateEntityFirst s.entities uid u' }
      (s, [])
    else (s, [])

/-- Phase 4 loop over the collected undertaker ids. -/
def undertakersLoop (s : GameState) : List String → GameState × TickEvents
  | [] => (s, [])
  | uid :: rest =>
    let (s, evs) := undertakerStep s uid
    let (s', evs') := undertakersLoop s rest
    (s', evs ++ evs')

/-- `TickEngine::process_undertakers` (phase 4); skipped entirely while the
compost tile is blighted. The rng parameter of the Rust function is unused. -/
def process_undertakers (s : GameState) : GameState × TickEvents :=
  let compost_blighted :=
    match s.map.get_tile "compost" with
    | some t => t.is_blighted
    | none => false
  if compost_blighted then (s, [])
  else
    let undertaker_ids :=
      (s.entities.filter fun e => e.role == some .undertaker).map Entity.id
    undertakersLoop s undertaker_ids

/-- Phase 5 kill loop: every entity on the compost tile is moved to the
graveyard with cause Blight, emitting a blight-kill event each. -/
def blightKillLoop (tick : Nat) (gy : Graveyard) :
    List Entity → List Entity × Graveyard × TickEvents
  | [] => ([], gy, [])
  | e :: rest =>
    if e.tile = "compost" then
      let gy := gy.add_corpse ⟨e.id, entityTypeLabel e.entity_type, tick, .blight, e.tile⟩
      let (surviving, gy', evs) := blightKillLoop tick gy rest
      (surviving, gy', ⟨tick, .blightKill e.id "compost"⟩ :: evs)
    else
      let (surviving, gy', evs) := blightKillLoop tick gy rest
      (e :: surviving, gy', evs)

/-- `TickEngine::process_blight` (phase 5). -/
def process_blight (s : GameState) (rng : SeededRng) :
    GameState × TickEvents × SeededRng :=
  let tick := s.tick
  match s.map.get_tile "compost" with
  | none => (s, [], rng)
  | some tl =>
    if tl.is_blighted then
      let (cleared, tl) := tl.tick_blight
      let s := { s with map := s.map.set_tile "compost" tl }
      if cleared then
        let s :=
          match s.get_system "compost_heap" with
          | some sys => s.set_system "compost_heap" sys.enable
          | none => s
        (s, [⟨tick, .blightCleared "compost"⟩], rng)
      else (s, [], rng)
    else
      let contamination := tl.contamination.getD 0
      if 0 < contamination then
        let (struck, rng) := rng.chance contamination
        if struck then
          let tl := tl.start_blight BLIGHT_DURATION
          let s := { s with map := s.map.set_tile "compost" tl }
          let s :=
            match s.get_system "compost_heap" with
            | some sys => s.set_system "compost_heap" { sys.disable with corpse_boosts := [] }
            | none => s
          let (surviving, gy, killEvs) := blightKillLoop tick s.graveyard s.entities
          ({ s with entities := surviving, graveyard := gy },
            ⟨tick, .blightStruck "compost" contamination BLIGHT_DURATION⟩ :: killEvs, rng)
        else (s, [], rng)
      else (s, [], rng)

/-- `TickEngine::process_queen` (phase 6). -/
def process_queen (eng : TickEngine) (s : GameState) (rng : SeededRng) :
    TickEngine × GameState × TickEvents × SeededRng :=
  let tick := s.tick
  if !s.has_system "queen_chamber" then (eng, s, [], rng)
  else
    let nutrients := s.resources.get "nutrients"
    let fungus := s.resources.get "fungus"
    let entity_count := s.entities.length
    let is_emergency := entity_count = 0 ∧ MIN_RESOURCES_TO_SPAWN ≤ nutrients ∧
      MIN_RESOURCES_TO_SPAWN ≤ fungus
    if is_emergency then
      let (worker_id, rng) := rng.entity_id
      let (undertaker_id, rng) := rng.entity_id
      let s := { s with entities := s.entities ++
        [Entity.new_worker worker_id "origin", Entity.new_undertaker undertaker_id "origin"] }
      let s := { s with resources :=
        (s.resources.add "nutrients" (-SPAWN_COST_NUTRIENTS)).add "fungus" (-SPAWN_COST_FUNGUS) }
      let eng := { eng with last_spawn_tick := tick }
      (eng, s, [⟨tick, .emergencySpawn worker_id undertaker_id⟩], rng)
    else if eng.last_spawn_tick = 0 then
      ({ eng with last_spawn_tick := tick }, s, [], rng)
    else if tick - eng.last_spawn_tick < SPAWN_INTERVAL_TICKS then (eng, s, [], rng)
    else if nutrients < MIN_RESOURCES_TO_SPAWN ∨ fungus < MIN_RESOURCES_TO_SPAWN then
      (eng, s, [], rng)
    else
      let (worker_id, rng) := rng.entity_id
      let (undertaker_id, rng) := rng.entity_id
      let s := { s with entities := s.entities ++
        [Entity.new_worker worker_id "origin", Entity.new_undertaker undertaker_id "origin"] }
      let s := { s with resources :=
        (s.resources.add "nutrients" (-SPAWN_COST_NUTRIENTS)).add "fungus" (-SPAWN_COST_FUNGUS) }
      let eng := { eng with last_spawn_tick := tick }
      (eng, s,
        [⟨tick, .antsSpawned worker_id undertaker_id SPAWN_COST_NUTRIENTS SPAWN_COST_FUNGUS⟩],
        rng)

/-- `last_maintained` with its default (the current tick) applied. -/
def maintLastMaintained (goal : Json) (tick : Nat) : Nat :=
  match (goal.get "last_maintained").bind Json.as_u64 with
  | some v => v
  | none => tick

/-- `maintenance_interval_ticks` with its default applied. -/
def maintInterval (goal : Json) : Nat :=
  match (goal.get "maintenance_interval_ticks").bind Json.as_u64 with
  | some v => v
  | none => MAINTENANCE_INTERVAL

/-- Update the `receiver_maintenance` goal value in the goals map. -/
def goalsStamp (goals : List (String × Json)) (tick : Nat) : List (String × Json) :=
  goals.map fun p =>
    if p.1 = "receiver_maintenance" then
      (p.1, p.2.setField "last_maintained" (.num tick))
    else p

/-- `TickEngine::check_receiver_maintenance` (sub-routine of phase 7). Returns
immediately when the `receiver_maintenance` goal record is absent. -/
def check_receiver_maintenance (s : GameState) : GameState × TickEvents :=
  let tick := s.tick
  match s.meta.goals.find? (fun p => p.1 == "receiver_maintenance") with
  | none => (s, [])
  | some p =>
    let goal := p.2
    let last_maintained := maintLastMaintained goal tick
    let interval := maintInterval goal
    let ticks_since_maint := tick - last_maintained
    let (s, evs) :=
      if interval ≤ ticks_since_maint then
        if MAINTENANCE_COST_STRANGE_MATTER ≤ s.resources.get "strange_matter" then
          let s := { s with
            resources := s.resources.add "strange_matter" (-MAINTENANCE_COST_STRANGE_MATTER) }
          ({ s with meta := { s.meta with goals := goalsStamp s.meta.goals tick } },
            ([] : TickEvents))
        else if !s.meta.receiver_silent then
          ({ s with meta :=
              { s.meta with receiver_silent := true, receiver_failed_tick := some tick } },
            [⟨tick, .receiverSilent⟩])
        else (s, [])
      else (s, [])
    if s.meta.receiver_silent ∧
        MAINTENANCE_COST_STRANGE_MATTER ≤ s.resources.get "strange_matter" then
      let s := { s with
        resources := s.resources.add "strange_matter" (-MAINTENANCE_COST_STRANGE_MATTER) }
      let s := { s with meta := { s.meta with
        receiver_silent := false, goals := goalsStamp s.meta.goals tick } }
      (s, evs ++ [⟨tick, .receiverRestored⟩])
    else (s, evs)

/-- `TickEngine::process_receiver` (phase 7). -/
def process_receiver (eng : TickEngine) (s : GameState) (rng : SeededRng) :
    TickEngine × GameState × TickEvents × SeededRng :=
  let tick := s.tick
  if !s.has_system "receiver" then (eng, s, [], rng)
  else
    let (s, evs) := check_receiver_maintenance s
    if s.meta.receiver_silent then (eng, s, evs, rng)
    else
      let s :=
        if LISTENING_DRAIN < s.resources.get "influence" then
          { s with resources := s.resources.add "influence" (-LISTENING_DRAIN) }
        else s
      let influence := s.resources.get "influence"
      if influence < SUMMON_COST then (eng, s, evs, rng)
      else if 0 < eng.last_summon_tick ∧ tick - eng.last_summon_tick < SUMMON_COOLDOWN then
        (eng, s, evs, rng)
      else
        let s := { s with resources := s.resources.add "influence" (-SUMMON_COST) }
        let eng := { eng with last_summon_tick := tick }
        let (success, rng) := rng.chance SUMMON_CHANCE
        let evs := evs ++ [⟨tick, .influenceSpent SUMMON_COST success⟩]
        if success then
          let (visitor_type_idx, rng) := rng.range 0 2
          let (vid, rng) := rng.visitor_id
          let (visitor, visitor_type) :=
            if visitor_type_idx = 0 then (Entity.new_wanderer vid, VisitorType.wanderer)
            else if visitor_type_idx = 1 then (Entity.new_observer vid, VisitorType.observer)
            else (Entity.new_hungry vid, VisitorType.hungry)
          let s := { s with entities := s.entities ++ [visitor] }
          (eng, s,
            evs ++ [⟨tick, .visitorArrived visitor.id visitor_type (visitor.name.getD "")⟩],
            rng)
        else (eng, s, evs ++ [⟨tick, .summoningFailed⟩], rng)

/-- Phase 8 inner loop: one passive-generation event per generated resource. -/
def visitorGenerates (tick : Nat) (res : Resources) (e : Entity) :
    Resources × TickEvents :=
  match e.generates with
  | some generates =>
    generates.foldl
      (fun acc p =>
        (acc.1.add p.1 p.2, acc.2 ++ [⟨tick, .passiveGeneration e.id p.1 p.2⟩]))
      (res, [])
  | none => (res, [])

/-- `TickEngine::process_visitors` (phase 8). -/
def process_visitors (s : GameState) : GameState × TickEvents :=
  let (res, evs) :=
    s.entities.foldl
      (fun acc e =>
        if e.entity_type = .visitor then
          let (res, evs) := visitorGenerates s.tick acc.1 e
          (res, acc.2 ++ evs)
        else acc)
      (s.resources, ([] : TickEvents))
  ({ s with resources := res }, evs)

/-- Phase 9, per resource: one threshold-crossed event for each fixed threshold
newly exceeded upward between the tick-entry amount and the current amount. -/
def thresholdEventsFor (tick : Nat) (prev : RMap) (resource : String) (current : Rat) :
    TickEvents :=
  (RESOURCE_THRESHOLDS.filter fun t => decide (prev.getv resource < t) &&
      decide (t ≤ current)).map
    fun t => ⟨tick, .thresholdCrossed resource t current⟩

/-- `TickEngine::check_thresholds` (phase 9); `prev` is the resource snapshot
taken before phase 1. -/
def check_thresholds (s : GameState) (prev : RMap) : TickEvents :=
  s.resources.amounts.foldr
    (fun p acc => thresholdEventsFor s.tick prev p.1 p.2 ++ acc) []

/-- `TickEngine::process_boredom` (phase 10). -/
def process_boredom (s : GameState) : GameState × TickEvents :=
  let tick := s.tick
  let boredom :=
    if !s.queues.has_actions && s.queues.events.isEmpty then s.meta.boredom + 1
    else s.meta.boredom - 1
  if BOREDOM_THRESHOLD ≤ boredom then
    ({ s with meta := { s.meta with boredom := 0 } }, [⟨tick, .boredomHigh boredom⟩])
  else ({ s with meta := { s.meta with boredom := boredom } }, [])

/-- `TickEngine::tick`: the full ten-phase pipeline for one tick. The phases
run strictly in order; each step is fed the state produced by the previous
one, the threshold check receives the pre-phase-1 resource snapshot, and the
per-tick rng threads through phases 5–7. -/
def TickEngine.tick (eng : TickEngine) (s : GameState) :
    TickEngine × GameState × TickEvents :=
  let s0 := { s with tick := s.tick + 1 }
  let rng0 := SeededRng.from_tick eng.seed s0.tick
  let prev_resources := s0.resources.amounts
  let a1 := process_actions s0
  let a2 := process_systems a1.1
  let a3 := process_entities a2.1
  let a4 := process_undertakers a3.1
  let a5 := process_blight a4.1 rng0
  let a6 := process_queen eng a5.1 a5.2.2
  let a7 := process_receiver a6.1 a6.2.1 a6.2.2.2
  let a8 := process_visitors a7.2.1
  let ev9 := check_thresholds a8.1 prev_resources
  let a10 := process_boredom a8.1
  (a7.1, a10.1,
    a1.2 ++ a2.2 ++ a3.2 ++ a4.2 ++ a5.2.1 ++ a6.2.2.1 ++ a7.2.2.1 ++ a8.2 ++ ev9 ++ a10.2)

/-- The simplified offline system pass: same consume/generate rule as phase 2
but with no corpse-boost bonus and no events. -/
def offlineSystemOperations (s : GameState) : List (String × RMap × RMap) :=
  s.systems.filterMap fun p =>
    let (id, sys) := p
    if sys.is_disabled then none
    else if !sys.can_run s.resources then none
    else some (id, sys.consumes.getD [], sys.generates.getD [])

/-- Offline per-entity pass: age, deplete hunger at half rate, auto-eat. -/
def offlineEntityStep (res : Resources) (e : Entity) : Resources × Entity :=
  let e := { e with age := e.age + 1, hunger := e.hunger - e.hunger_rate * (1/2) }
  if e.hunger < HUNGER_THRESHOLD_EAT then
    match e.food with
    | some food =>
      if 1 ≤ res.get food then
        (res.add food (-1),
          { e with hunger := min (e.hunger + HUNGER_GAIN_FROM_EATING) MAX_HUNGER })
      else (res, e)
    | none => (res, e)
  else (res, e)

/-- One simplified offline tick: systems, entity aging/eating, then removal of
entities that died offline — with no graveyard bookkeeping and no events, and
with the age cutoff at the `DEFAULT_MAX_AGE` constant. -/
def offlineTickStep (s : GameState) : GameState :=
  let s := { s with tick := s.tick + 1 }
  let res :=
    (offlineSystemOperations s).foldl
      (fun r op =>
        let r := op.2.1.foldl (fun r p => r.add p.1 (-p.2)) r
        op.2.2.foldl (fun r p => r.add p.1 p.2) r)
      s.resources
  let (res, entities) :=
    s.entities.foldl
      (fun acc e =>
        let (res, e) := offlineEntityStep acc.1 e
        (res, acc.2 ++ [e]))
      (res, ([] : List Entity))
  let entities := entities.filter fun e =>
    decide (0 < e.hunger) && decide (e.age < DEFAULT_MAX_AGE)
  { s with resources := res, entities := entities }

/-- Iterate the simplified offline tick. -/
def offlineTicks (s : GameState) : Nat → GameState
  | 0 => s
  | n + 1 => offlineTicks (offlineTickStep s) n

/-- `TickEngine::process_offline_progress`: clamp elapsed whole seconds to the
catch-up window, skip tiny gaps, then apply the simplified ticks. The returned
event list is empty by design. -/
def process_offline_progress (s : GameState) (current_timestamp : Rat) :
    GameState × TickEvents :=
  match s.last_save_timestamp with
  | none => (s, [])
  | some last_save =>
    let elapsed_seconds := current_timestamp - last_save
    if elapsed_seconds ≤ 0 then (s, [])
    else
      let ticks_to_apply := min elapsed_seconds.floor.toNat MAX_OFFLINE_TICKS
      if ticks_to_apply < 10 then (s, [])
      else (offlineTicks s ticks_to_apply, [])

/-- `TickEngine::init_from_state`: infer the last spawn tick from the youngest
living ant's age. -/
def TickEngine.init_from_state (eng : TickEngine) (s : GameState) : TickEngine :=
  if s.entities.isEmpty then eng
  else
    let ages := (s.entities.filter fun e => e.entity_type == .ant).map Entity.age
    let youngest_age :=
      match ages with
      | [] => 0
      | a :: rest => rest.foldl min a
    { eng with last_spawn_tick := s.tick - youngest_age }

/-- Run `n` consecutive ticks, collecting each tick's event list. -/
def runTicks (eng : TickEngine) (s : GameState) :
    Nat → TickEngine × GameState × List TickEvents
  | 0 => (eng, s, [])
  | n + 1 =>
    let (eng, s, evs) := eng.tick s
    let (eng', s', rest) := runTicks eng s n
    (eng', s', evs :: rest)

/-! ## Theorems -/

/-- C1: for any fixed seed and any starting snapshot, running the tick
operation N times from that snapshot twice (two runs of the same engine
configuration) produces bit-identical resulting `GameState` (and engine
bookkeeping), and, for each tick, event lists equal up to reordering within
that tick. -/
theorem tick_deterministic (e₁ e₂ : TickEngine) (s₁ s₂ : GameState) (n : Nat)
    (heng : e₁ = e₂) (hst : s₁ = s₂) :
    (runTicks e₁ s₁ n).2.1 = (runTicks e₂ s₂ n).2.1 ∧
    (runTicks e₁ s₁ n).1 = (runTicks e₂ s₂ n).1 ∧
    List.Forall₂ List.Perm (runTicks e₁ s₁ n).2.2 (runTicks e₂ s₂ n).2.2 := by
  subst heng hst
  exact ⟨rfl, rfl, List.forall₂_same.mpr fun x _ => List.Perm.refl x⟩

/-- Witness for C1 at a concrete engine, snapshot and tick count. -/
theorem tick_deterministic_witness :
    (runTicks (TickEngine.new 42) GameState.default 3).2.1
        = (runTicks (TickEngine.new 42) GameState.default 3).2.1 ∧
    (runTicks (TickEngine.new 42) GameState.default 3).1
        = (runTicks (TickEngine.new 42) GameState.default 3).1 ∧
    List.Forall₂ List.Perm (runTicks (TickEngine.new 42) GameState.default 3).2.2
        (runTicks (TickEngine.new 42) GameState.default 3).2.2 :=
  tick_deterministic (TickEngine.new 42) (TickEngine.new 42)
    GameState.default GameState.default 3 rfl rfl

/-- C8 counterexample: an index selection over length zero returns nothing
without touching the call counter, so the claim that every draw increments
the counter by exactly one fails at this input. -/
theorem rng_zero_len_no_increment_cex :
    ¬ ((SeededRng.new 42).choose_index 0).2.calls = (SeededRng.new 42).calls + 1 := by
  decide

/-- C8 (amended): every exposed draw — boolean chance, uniform float, uniform
integer range, nonempty index selection, entity id, visitor id — increments
the internal call counter by exactly one; index selection over length zero
returns nothing and leaves the generator (counter included) unchanged. -/
theorem rng_draws_increment_calls (r : SeededRng) (p : Rat) (lo hi len : Nat)
    (hlen : 0 < len) :
    (r.chance p).2.calls = r.calls + 1 ∧
    r.random.2.calls = r.calls + 1 ∧
    (r.range lo hi).2.calls = r.calls + 1 ∧
    r.entity_id.2.calls = r.calls + 1 ∧
    r.visitor_id.2.calls = r.calls + 1 ∧
    (r.choose_index len).2.calls = r.calls + 1 ∧
    (r.choose_index len).1.isSome = true ∧
    r.choose_index 0 = (none, r) := by
  refine ⟨rfl, rfl, rfl, rfl, rfl, ?_, ?_, rfl⟩ <;>
    simp [SeededRng.choose_index, SeededRng.nextWord, Nat.pos_iff_ne_zero.mp hlen]

/-- Witness for C8's amended theorem at a concrete generator and inputs. -/
theorem rng_draws_increment_calls_witness :
    ((SeededRng.new 42).chance (3/10)).2.calls = (SeededRng.new 42).calls + 1 ∧
    (SeededRng.new 42).random.2.calls = (SeededRng.new 42).calls + 1 ∧
    ((SeededRng.new 42).range 0 2).2.calls = (SeededRng.new 42).calls + 1 ∧
    (SeededRng.new 42).entity_id.2.calls = (SeededRng.new 42).calls + 1 ∧
    (SeededRng.new 42).visitor_id.2.calls = (SeededRng.new 42).calls + 1 ∧
    ((SeededRng.new 42).choose_index 5).2.calls = (SeededRng.new 42).calls + 1 ∧
    ((SeededRng.new 42).choose_index 5).1.isSome = true ∧
    (SeededRng.new 42).choose_index 0 = (none, SeededRng.new 42) :=
  rng_draws_increment_calls (SeededRng.new 42) (3/10) 0 2 5 (by decide)

/-- The failing input for C5: an entity one tick away from its own maximum-age
cap of 900 (far below the global default of 7200), well fed. -/
def offlineElder : Entity :=
  { Entity.new_worker "elder" "origin" with age := 899, max_age := 900, hunger_rate := 0 }

/-- C5's failing snapshot: saved at time 0, resumed 20 seconds later. -/
def offlineElderState : GameState :=
  { GameState.default with
    last_save_timestamp := some 0
    entities := [offlineElder] }

/-- C5: the offline-progress removal filter compares age against the constant
`DEFAULT_MAX_AGE` (7200) instead of the entity's own `max_age` field, so after
20 offline ticks this entity has age 919 ≥ its cap of 900 yet is still in the
live list (the comment above the Rust `retain` quotes the Python reference,
which uses the per-entity `max_age`). The graveyard/death-event half of the
claim does hold: nothing is added to the graveyard and no events are emitted. -/
theorem offline_age_cap_divergence :
    ((process_offline_progress offlineElderState 20).1.entities.map Entity.age = [919]) ∧
    ((process_offline_progress offlineElderState 20).1.entities.map Entity.max_age = [900]) ∧
    ((process_offline_progress offlineElderState 20).1.graveyard.corpses = []) ∧
    ((process_offline_progress offlineElderState 20).1.graveyard.total_processed = 0) ∧
    ((process_offline_progress offlineElderState 20).2 = []) := by
  with_unfolding_all decide

/-- The counterexample snapshot for C2: a visitor standing on a compost tile
whose contamination is 1, so the blight roll is certain to hit. -/
def visitorOnCompostState : GameState :=
  { GameState.default with
    map :=
      { tiles := [("origin", Tile.origin),
          ("compost", { Tile.new_compost "The Heap" 1 0 with contamination := some 1 })]
        connections := [] }
    entities := [{ Entity.new_wanderer "v1" with tile := "compost" }] }

/-- C2 counterexample: one tick from this snapshot puts a Visitor-type corpse
into the graveyard — the blight kill moves every entity on the compost tile to
the graveyard regardless of its type. -/
theorem visitor_corpse_in_graveyard_cex :
    (((TickEngine.new 0).tick visitorOnCompostState).2.1.graveyard.corpses.map
        Corpse.entity_type = ["visitor"]) ∧
    (((TickEngine.new 0).tick visitorOnCompostState).2.1.graveyard.corpses.map
        Corpse.cause = [DeathCause.blight]) := by
  with_unfolding_all decide

/-- The counterexample snapshot for C3: an ant whose hunger is already 0
(≤ 0) before phase 3, with plenty of its food resource in stock. -/
def starvingButFedState : GameState :=
  { GameState.default with
    entities := [{ Entity.new_worker "lazarus" "origin" with hunger := 0 }]
    resources := Resources.new.set "fungus" 10 }

/-- C3 counterexample: an entity with hunger ≤ 0 before phase 3 eats during
the phase (hunger 0 → −0.1 → 29.9) and survives: it is not removed, no corpse
appears, and no death event is emitted. -/
theorem starvation_rescued_by_eating_cex :
    (((TickEngine.new 0).tick starvingButFedState).2.1.entities.map Entity.id
        = ["lazarus"]) ∧
    (((TickEngine.new 0).tick starvingButFedState).2.1.graveyard.corpses = []) ∧
    (((TickEngine.new 0).tick starvingButFedState).2.2.countP
        (fun ev =>
          match ev.kind with
          | .entityDied _ _ _ _ => true
          | _ => false) = 0) := by
  with_unfolding_all decide

/-- The counterexample snapshot for C6: the receiver exists and is silent,
one unit of strange matter is available, but the goals map has no
`receiver_maintenance` record. -/
def silentNoGoalState : GameState :=
  { GameState.default with
    systems := [("receiver", System.new_generator "The Receiver" [])]
    meta := { Meta.default with receiver_silent := true }
    resources := Resources.new.set "strange_matter" 1 }

/-- C6 counterexample: with the `receiver_maintenance` goal record absent the
maintenance sub-routine returns immediately instead of applying defaults, so
the silent receiver with enough strange matter is not restored: the flag stays
set, the strange matter is not consumed, and no event at all is emitted. -/
theorem receiver_restore_skipped_cex :
    (((TickEngine.new 0).tick silentNoGoalState).2.1.meta.receiver_silent = true) ∧
    (((TickEngine.new 0).tick silentNoGoalState).2.1.resources.get "strange_matter" = 1) ∧
    (((TickEngine.new 0).tick silentNoGoalState).2.2 = []) := by
  with_unfolding_all decide

/-- Replacing the value under a present key in an association list makes the
next lookup of that key return the new value. -/
theorem find_update_eq {β : Type} (l : List (String × β)) (k : String) (b : β)
    (p₀ : String × β) (h : l.find? (fun p => p.1 == k) = some p₀) :
    (l.map fun p => if p.1 = k then (p.1, b) else p).find? (fun p => p.1 == k)
      = some (k, b) := by
  induction l with
  | nil => simp at h
  | cons hd tl ih =>
    by_cases hk : hd.1 = k
    · simp [List.find?_cons_of_pos, hk]
    · rw [List.find?_cons_of_neg _ (by simp [hk])] at h
      simp only [List.map_cons, if_neg hk]
      rw [List.find?_cons_of_neg _ (by simp [hk])]
      exact ih h

/-- Writing a system back under an id that is present yields that system on
the next lookup. -/
theorem get_system_set_system (s : GameState) (id : String) (sys₀ sys : System)
    (h : s.get_system id = some sys₀) :
    (s.set_system id sys).get_system id = some sys := by
  unfold GameState.get_system at h
  rcases hfind : s.systems.find? (fun p => p.1 == id) with _ | p₀
  · rw [hfind] at h; exact absurd h (by simp)
  · show (match (s.systems.map fun p => if p.1 = id then (p.1, sys) else p).find?
        (fun p => p.1 == id) with
      | some p => some p.2
      | none => none) = some sys
    rw [find_update_eq s.systems id sys p₀ hfind]

/-- Writing a tile back under an id that is present yields that tile on the
next lookup. -/
theorem get_tile_set_tile (m : GameMap) (id : String) (tl₀ tl : Tile)
    (h : m.get_tile id = some tl₀) :
    (m.set_tile id tl).get_tile id = some tl := by
  unfold GameMap.get_tile at h
  rcases hfind : m.tiles.find? (fun p => p.1 == id) with _ | p₀
  · rw [hfind] at h; exact absurd h (by simp)
  · show (match (m.tiles.map fun p => if p.1 = id then (p.1, tl) else p).find?
        (fun p => p.1 == id) with
      | some p => some p.2
      | none => none) = some tl
    rw [find_update_eq m.tiles id tl p₀ hfind]

/-- Changing only the map of a state does not affect system lookups. -/
theorem get_system_map_irrel (s : GameState) (m : GameMap) (id : String) :
    ({ s with map := m } : GameState).get_system id = s.get_system id := rfl

/-- `enable` after `disable` restores the rate maps of a system that was not
already disabled, exactly as they were before the disable. -/
theorem enable_after_disable (sys : System) (h : sys.original_generates = none) :
    sys.disable.enable.generates = sys.generates ∧
    sys.disable.enable.consumes = sys.consumes := by
  unfold System.disable System.enable
  rw [if_pos h]
  cases hg : sys.generates <;> cases hc : sys.consumes <;> simp

/-- C4: while the compost tile is blighted, each tick of phase 5 decrements
the remaining blight duration (emitting nothing and leaving the systems and
the rng untouched); on the tick the duration reaches zero the blighted flag is
cleared, contamination resets to 0, the compost-heap system is re-enabled with
its consumes/generates maps restored to exactly their pre-disable values, a
blight-cleared event is emitted (and nothing else — in particular no blight
strike), and the rng is returned unused, so no new blight roll occurs. -/
theorem blight_countdown_and_clear (s : GameState) (rng : SeededRng) (tl : Tile)
    (sys₀ : System)
    (htl : s.map.get_tile "compost" = some tl)
    (hbl : tl.blighted = some true)
    (hsys : s.get_system "compost_heap" = some sys₀.disable)
    (hfresh : sys₀.original_generates = none) :
    (1 < tl.blight_ticks_remaining.getD 0 →
      (process_blight s rng).1.map.get_tile "compost" = some
          { tl with blight_ticks_remaining := some (tl.blight_ticks_remaining.getD 0 - 1) } ∧
      (process_blight s rng).1.systems = s.systems ∧
      (process_blight s rng).2.1 = [] ∧
      (process_blight s rng).2.2 = rng) ∧
    (tl.blight_ticks_remaining.getD 0 ≤ 1 →
      (process_blight s rng).1.map.get_tile "compost" = some
          { tl with
            blighted := some false
            blight_ticks_remaining := some 0
            contamination := some 0 } ∧
      (∃ sys', (process_blight s rng).1.get_system "compost_heap" = some sys' ∧
        sys'.generates = sys₀.generates ∧ sys'.consumes = sys₀.consumes) ∧
      (process_blight s rng).2.1 = [⟨s.tick, .blightCleared "compost"⟩] ∧
      (process_blight s rng).2.2 = rng) := by
  have hisbl : tl.is_blighted = true := by simp [Tile.is_blighted, hbl]
  constructor
  · intro hgt
    have hnle : ¬ tl.blight_ticks_remaining.getD 0 ≤ 1 := Nat.not_le.mpr hgt
    simp only [process_blight, htl, hisbl, Tile.tick_blight, Bool.not_true,
      Bool.false_eq_true, if_false, if_neg hnle]
    refine ⟨?_, rfl, rfl, rfl⟩
    exact get_tile_set_tile s.map "compost" tl _ htl
  · intro hle
    simp only [process_blight, htl, hisbl, Tile.tick_blight, Bool.not_true,
      Bool.false_eq_true, if_false, if_pos hle, get_system_map_irrel, hsys]
    refine ⟨?_, ?_, rfl, rfl⟩
    · exact get_tile_set_tile s.map "compost" tl _ htl
    · refine ⟨sys₀.disable.enable, ?_, (enable_after_disable sys₀ hfresh).1,
        (enable_after_disable sys₀ hfresh).2⟩
      exact get_system_set_system _ "compost_heap" sys₀.disable _ hsys

/-- A concrete enabled compost-heap system for the C4 witness. -/
def compostSysW : System :=
  System.new_converter "Compost Heap" [("corpses", 1)] [("nutrients", 1/50)]

/-- A concrete blighted compost tile with one tick of duration left. -/
def blightTileW : Tile :=
  { Tile.new_compost "The Heap" 1 0 with
    blighted := some true
    blight_ticks_remaining := some 1
    contamination := some (1/2) }

/-- A concrete snapshot for the C4 witness: compost tile blighted with one
tick of duration left, compost-heap disabled. -/
def blightClearStateW : GameState :=
  { GameState.default with
    map := { tiles := [("origin", Tile.origin), ("compost", blightTileW)], connections := [] }
    systems := [("compost_heap", compostSysW.disable)] }

/-- Witness for C4 at the concrete snapshot. -/
theorem blight_countdown_and_clear_witness :
    (1 < blightTileW.blight_ticks_remaining.getD 0 →
      (process_blight blightClearStateW (SeededRng.new 7)).1.map.get_tile "compost" = some
          { blightTileW with
            blight_ticks_remaining := some (blightTileW.blight_ticks_remaining.getD 0 - 1) } ∧
      (process_blight blightClearStateW (SeededRng.new 7)).1.systems
          = blightClearStateW.systems ∧
      (process_blight blightClearStateW (SeededRng.new 7)).2.1 = [] ∧
      (process_blight blightClearStateW (SeededRng.new 7)).2.2 = SeededRng.new 7) ∧
    (blightTileW.blight_ticks_remaining.getD 0 ≤ 1 →
      (process_blight blightClearStateW (SeededRng.new 7)).1.map.get_tile "compost" = some
          { blightTileW with
            blighted := some false
            blight_ticks_remaining := some 0
            contamination := some 0 } ∧
      (∃ sys', (process_blight blightClearStateW (SeededRng.new 7)).1.get_system
          "compost_heap" = some sys' ∧
        sys'.generates = compostSysW.generates ∧ sys'.consumes = compostSysW.consumes) ∧
      (process_blight blightClearStateW (SeededRng.new 7)).2.1
          = [⟨blightClearStateW.tick, .blightCleared "compost"⟩] ∧
      (process_blight blightClearStateW (SeededRng.new 7)).2.2 = SeededRng.new 7) :=
  blight_countdown_and_clear blightClearStateW (SeededRng.new 7) blightTileW compostSysW
    rfl rfl rfl rfl

/-- Adding to a resource changes exactly its own reading, by the delta. -/
theorem Resources.get_add_self (r : Resources) (n : String) (d : Rat) :
    (r.add n d).get n = r.get n + d := by
  show ((r.amounts.insert n (r.get n + d)).getv n) = r.get n + d
  induction r.amounts with
  | nil => simp [RMap.insert, RMap.getv, RMap.find?]
  | cons hd tl ih =>
    by_cases hk : hd.1 = n
    · simp [RMap.insert, hk, RMap.getv, RMap.find?]
    · show (RMap.getv (RMap.insert (hd :: tl) n (Resources.get r n + d)) n) = _
      rw [RMap.insert]
      simp only [if_neg hk]
      show (RMap.getv ((hd.1, hd.2) :: RMap.insert tl n (Resources.get r n + d)) n) = _
      rw [RMap.getv, RMap.find?]
      simp only [if_neg hk]
      exact ih

/-- After a stamp, looking up the `receiver_maintenance` goal returns the
stamped version of whatever was found before. -/
theorem goalsStamp_find (gs : List (String × Json)) (t : Nat) :
    (goalsStamp gs t).find? (fun p => p.1 == "receiver_maintenance")
      = (gs.find? (fun p => p.1 == "receiver_maintenance")).map
          (fun p => (p.1, p.2.setField "last_maintained" (.num t))) := by
  induction gs with
  | nil => rfl
  | cons hd tl ih =>
    by_cases hk : hd.1 = "receiver_maintenance"
    · simp [goalsStamp, List.find?_cons_of_pos, hk]
    · simp only [goalsStamp, List.map_cons, if_neg hk] at *
      rw [List.find?_cons_of_neg _ (by simp [hk]), List.find?_cons_of_neg _ (by simp [hk])]
      exact ih

/-- Setting a field of a JSON object makes that field readable. -/
theorem setFields_find (fields : List (String × Json)) (k : String) (v : Json) :
    (Json.setFields fields k v).find? (fun p => p.1 == k) = some (k, v) := by
  induction fields with
  | nil => simp [Json.setFields, List.find?]
  | cons hd tl ih =>
    by_cases hk : hd.1 = k
    · simp [Json.setFields, if_pos hk, List.find?_cons_of_pos]
    · simp only [Json.setFields, if_neg hk]
      rw [List.find?_cons_of_neg _ (by simp [hk])]
      exact ih

/-- `get` after `setField` on an object returns the newly set value. -/
theorem setField_get_obj (fields : List (String × Json)) (k : String) (v : Json) :
    ((Json.obj fields).setField k v).get k = some v := by
  simp [Json.setField, Json.get, setFields_find]

/-- C6 (amended): when the `receiver_maintenance` goal record is present (an
object; defaults apply to its absent fields), the receiver is currently
silent, the maintenance interval has not elapsed this invocation, and at least
the maintenance cost of strange_matter exists, the maintenance sub-routine
consumes that cost, clears the silent flag, stamps the current tick as last
maintained, and emits exactly a receiver-restored event. (When the record is
absent the sub-routine returns without doing anything — see the
counterexample; when the interval has elapsed, the maintenance branch consumes
one cost first without clearing the flag.) -/
theorem receiver_restored_when_goal_present (s : GameState)
    (fields : List (String × Json))
    (hgoal : s.meta.goals.find? (fun p => p.1 == "receiver_maintenance")
        = some ("receiver_maintenance", Json.obj fields))
    (hsilent : s.meta.receiver_silent = true)
    (hcost : MAINTENANCE_COST_STRANGE_MATTER ≤ s.resources.get "strange_matter")
    (hnotdue : s.tick - maintLastMaintained (Json.obj fields) s.tick
        < maintInterval (Json.obj fields)) :
    (check_receiver_maintenance s).1.meta.receiver_silent = false ∧
    (check_receiver_maintenance s).1.resources.get "strange_matter"
        = s.resources.get "strange_matter" - MAINTENANCE_COST_STRANGE_MATTER ∧
    ((check_receiver_maintenance s).1.meta.goals.find?
        (fun p => p.1 == "receiver_maintenance")).map (fun p => p.2.get "last_maintained")
        = some (some (Json.num s.tick)) ∧
    (check_receiver_maintenance s).2 = [⟨s.tick, .receiverRestored⟩] := by
  have hnd : ¬ maintInterval (Json.obj fields)
      ≤ s.tick - maintLastMaintained (Json.obj fields) s.tick := Nat.not_le.mpr hnotdue
  simp only [check_receiver_maintenance, hgoal, if_neg hnd]
  rw [if_pos ⟨hsilent, hcost⟩]
  refine ⟨rfl, ?_, ?_, rfl⟩
  · have := Resources.get_add_self s.resources "strange_matter"
      (-MAINTENANCE_COST_STRANGE_MATTER)
    rw [this]; ring
  · rw [goalsStamp_find s.meta.goals s.tick, hgoal]
    simp [setField_get_obj]

/-- The concrete witness snapshot for C6's amended theorem: the goal record is
present (an empty object, so both defaults apply), the receiver is silent, and
two units of strange matter exist. -/
def silentGoalStateW : GameState :=
  { GameState.default with
    meta :=
      { Meta.default with
        receiver_silent := true
        goals := [("receiver_maintenance", Json.obj [])] }
    resources := Resources.new.set "strange_matter" 2 }

/-- Witness for C6's amended theorem at the concrete snapshot. -/
theorem receiver_restored_when_goal_present_witness :
    (check_receiver_maintenance silentGoalStateW).1.meta.receiver_silent = false ∧
    (check_receiver_maintenance silentGoalStateW).1.resources.get "strange_matter"
        = silentGoalStateW.resources.get "strange_matter"
            - MAINTENANCE_COST_STRANGE_MATTER ∧
    ((check_receiver_maintenance silentGoalStateW).1.meta.goals.find?
        (fun p => p.1 == "receiver_maintenance")).map (fun p => p.2.get "last_maintained")
        = some (some (Json.num silentGoalStateW.tick)) ∧
    (check_receiver_maintenance silentGoalStateW).2
        = [⟨silentGoalStateW.tick, .receiverRestored⟩] :=
  receiver_restored_when_goal_present silentGoalStateW [] rfl rfl
    (by with_unfolding_all decide) (by decide)

/-- The C9 overdraw snapshot: two converters each consuming 1.0 dirt per tick,
with exactly 1.0 dirt in the pool. -/
def overdrawState : GameState :=
  { GameState.default with
    resources := Resources.new.set "dirt" 1
    systems :=
      [("digester_a", System.new_converter "Digester A" [("dirt", 1)] []),
       ("digester_b", System.new_converter "Digester B" [("dirt", 1)] [])] }

/-- C9: in phase 2 every enabled system whose consumption is satisfiable
against the resource amounts as they stood at the start of the phase is
collected into the applied operations (the check happens before any system's
deltas are applied); consequently two systems each consuming 1.0 dirt both run
when only 1.0 dirt exists, driving dirt to −1 over the tick. -/
theorem systems_check_entry_snapshot :
    (∀ (s : GameState) (id : String) (sys : System), (id, sys) ∈ s.systems →
      sys.is_disabled = false → sys.can_run s.resources = true →
      ∃ gen, (id, sys.consumes.getD [], gen) ∈ systemOperations s) ∧
    ((TickEngine.new 0).tick overdrawState).2.1.resources.get "dirt" = -1 ∧
    ((TickEngine.new 0).tick overdrawState).2.1.resources.get "dirt" < 0 := by
  refine ⟨?_, ?_, ?_⟩
  · intro s id sys hmem hen hrun
    refine ⟨if id = "compost_heap" then
        (if 0 < sys.total_corpse_bonus s.tick then
          (sys.generates.getD []).insert "nutrients"
            ((sys.generates.getD []).getv "nutrients" + sys.total_corpse_bonus s.tick)
        else sys.generates.getD [])
      else sys.generates.getD [], ?_⟩
    apply List.mem_filterMap.mpr
    refine ⟨(id, sys), hmem, ?_⟩
    simp [hen, hrun]
  · with_unfolding_all decide
  · with_unfolding_all decide

/-- Witness for C9's universally quantified part at the overdraw snapshot's
first digester, paired with the concrete overdraw fact. -/
theorem systems_check_entry_snapshot_witness :
    (∃ gen, ("digester_a",
        (System.new_converter "Digester A" [("dirt", 1)] []).consumes.getD [], gen)
        ∈ systemOperations overdrawState) ∧
    ((TickEngine.new 0).tick overdrawState).2.1.resources.get "dirt" = -1 :=
  ⟨systems_check_entry_snapshot.1 overdrawState "digester_a"
      (System.new_converter "Digester A" [("dirt", 1)] [])
      (List.mem_cons_self _ _) rfl (by with_unfolding_all decide),
    systems_check_entry_snapshot.2.1⟩

/-- An entity found by id bears that id. -/
theorem find?_id_eq (es : List Entity) (uid : String) (u : Entity)
    (h : es.find? (fun e => e.id == uid) = some u) : u.id = uid := by
  have := List.find?_some h
  simpa using this

/-- With distinct entity ids, looking up a member's id finds that member. -/
theorem find_entity_of_mem_nodup (es : List Entity) (u : Entity)
    (hmem : u ∈ es) (hnd : (es.map Entity.id).Nodup) :
    es.find? (fun e => e.id == u.id) = some u := by
  induction es with
  | nil => cases hmem
  | cons e rest ih =>
    rcases List.mem_cons.mp hmem with rfl | hmem'
    · rw [List.find?_cons_of_pos _ (by simp)]
    · have hne : e.id ≠ u.id := by
        intro heq
        have hin : u.id ∈ rest.map Entity.id := List.mem_map_of_mem _ hmem'
        rw [List.map_cons, List.nodup_cons] at hnd
        exact hnd.1 (heq ▸ hin)
      rw [List.find?_cons_of_neg _ (by simp [hne])]
      exact ih hmem' ((List.map_cons Entity.id e rest ▸ hnd).of_cons)

/-- Replacing the first entity of a given id (by one with the same id) does
not change what a different id finds. -/
theorem find?_updateEntityFirst_ne (es : List Entity) (uid x : String) (e' : Entity)
    (hx : x ≠ uid) (h : e'.id = uid) :
    (updateEntityFirst es uid e').find? (fun e => e.id == x)
      = es.find? (fun e => e.id == x) := by
  induction es with
  | nil => rfl
  | cons e rest ih =>
    by_cases hk : e.id = uid
    · rw [updateEntityFirst, if_pos hk]
      rw [List.find?_cons_of_neg _ (by simp [h, Ne.symm hx]),
        List.find?_cons_of_neg _ (by simp [hk, Ne.symm hx])]
    · rw [updateEntityFirst, if_neg hk]
      by_cases hex : e.id = x
      · rw [List.find?_cons_of_pos _ (by simp [hex]),
          List.find?_cons_of_pos _ (by simp [hex])]
      · rw [List.find?_cons_of_neg _ (by simp [hex]),
          List.find?_cons_of_neg _ (by simp [hex])]
        exact ih

/-- Replacing the first entity of a found id makes that id find the
replacement. -/
theorem find?_updateEntityFirst_self (es : List Entity) (uid : String) (u e' : Entity)
    (hfind : es.find? (fun e => e.id == uid) = some u) (h : e'.id = uid) :
    (updateEntityFirst es uid e').find? (fun e => e.id == uid) = some e' := by
  induction es with
  | nil => simp at hfind
  | cons e rest ih =>
    by_cases hk : e.id = uid
    · rw [updateEntityFirst, if_pos hk]
      rw [List.find?_cons_of_pos _ (by simp [h])]
    · rw [updateEntityFirst, if_neg hk]
      rw [List.find?_cons_of_neg _ (by simp [hk])] at hfind
      rw [List.find?_cons_of_neg _ (by simp [hk])]
      exact ih hfind

/-- Taking a corpse never changes the processed counter. -/
theorem take_corpse_total (g : Graveyard) :
    g.take_corpse.2.total_processed = g.total_processed := by
  unfold Graveyard.take_corpse
  split <;> rfl

/-- Any corpse left after taking one was already there. -/
theorem take_corpse_mem (g : Graveyard) (c : Corpse)
    (h : c ∈ g.take_corpse.2.corpses) : c ∈ g.corpses := by
  rcases g with ⟨corpses, total⟩
  cases corpses with
  | nil => exact h
  | cons c₀ rest => exact List.mem_cons_of_mem c₀ h

/-- Adding the compost boost never changes the map. -/
theorem addCompostBoost_map (s : GameState) : (addCompostBoost s).map = s.map := by
  unfold addCompostBoost; split <;> rfl

/-- Adding the compost boost never changes the tick. -/
theorem addCompostBoost_tick (s : GameState) : (addCompostBoost s).tick = s.tick := by
  unfold addCompostBoost; split <;> rfl

/-- Adding the compost boost never changes the graveyard. -/
theorem addCompostBoost_graveyard (s : GameState) :
    (addCompostBoost s).graveyard = s.graveyard := by
  unfold addCompostBoost; split <;> rfl

/-- Adding the compost boost never changes the entities. -/
theorem addCompostBoost_entities (s : GameState) :
    (addCompostBoost s).entities = s.entities := by
  unfold addCompostBoost; split <;> rfl

/-- With no compost tile, one undertaker-loop step changes neither the map,
the tick, the processed counter, nor emits any event. -/
theorem undertakerStep_no_compost (s : GameState) (uid : String)
    (h : s.map.get_tile "compost" = none) :
    (undertakerStep s uid).1.map = s.map ∧
    (undertakerStep s uid).1.tick = s.tick ∧
    (undertakerStep s uid).1.graveyard.total_processed = s.graveyard.total_processed ∧
    (undertakerStep s uid).2 = [] := by
  unfold undertakerStep
  cases hf : s.entities.find? (fun e => e.id == uid) with
  | none => exact ⟨rfl, rfl, rfl, rfl⟩
  | some u =>
    dsimp only
    split
    · split
      · rw [addCompostBoost_map]
        dsimp only
        rw [h]
        dsimp only
        exact ⟨addCompostBoost_map _, addCompostBoost_tick _,
          congrArg Graveyard.total_processed (addCompostBoost_graveyard _), rfl⟩
      · exact ⟨rfl, rfl, rfl, rfl⟩
    · split
      · exact ⟨rfl, rfl, take_corpse_total s.graveyard, rfl⟩
      · exact ⟨rfl, rfl, rfl, rfl⟩

/-- System lookups depend only on the systems field. -/
theorem get_system_congr (s₁ s₂ : GameState) (h : s₁.systems = s₂.systems)
    (id : String) : s₁.get_system id = s₂.get_system id := by
  unfold GameState.get_system
  rw [h]

/-- A step of the undertaker loop either leaves the systems alone or routes
them through `addCompostBoost` on a state with the same systems and tick. -/
theorem undertakerStep_systems (s : GameState) (uid : String) :
    (undertakerStep s uid).1.systems = s.systems ∨
    ∃ s', (undertakerStep s uid).1.systems = (addCompostBoost s').systems ∧
      s'.systems = s.systems ∧ s'.tick = s.tick := by
  unfold undertakerStep
  cases hf : s.entities.find? (fun e => e.id == uid) with
  | none => exact Or.inl rfl
  | some u =>
    dsimp only
    split
    · split
      · rw [addCompostBoost_map]
        dsimp only
        split
        · exact Or.inr ⟨_, rfl, rfl, rfl⟩
        · exact Or.inr ⟨_, rfl, rfl, rfl⟩
      · exact Or.inl rfl
    · split
      · exact Or.inl rfl
      · exact Or.inl rfl

/-- `addCompostBoost` on a state whose compost-heap system is present appends
exactly the boost for the current tick. -/
theorem addCompostBoost_get (s : GameState) (sys : System)
    (hsys : s.get_system "compost_heap" = some sys) :
    (addCompostBoost s).get_system "compost_heap"
      = some { sys with corpse_boosts := sys.corpse_boosts ++
          [CorpseBoost.mk (s.tick + CORPSE_BOOST_DURATION) CORPSE_NUTRIENT_BOOST] } := by
  unfold addCompostBoost
  rw [hsys]
  exact get_system_set_system s "compost_heap" sys _ hsys

/-- A step of the undertaker loop keeps the compost-heap system present and
keeps any boost it already carries. -/
theorem undertakerStep_boost_mono (s : GameState) (uid : String) (sys : System)
    (b : CorpseBoost)
    (hsys : s.get_system "compost_heap" = some sys) (hb : b ∈ sys.corpse_boosts) :
    ∃ sys', (undertakerStep s uid).1.get_system "compost_heap" = some sys' ∧
      b ∈ sys'.corpse_boosts := by
  rcases undertakerStep_systems s uid with hsy | ⟨s', hsy, hss', _⟩
  · exact ⟨sys, (get_system_congr _ s hsy "compost_heap").trans hsys, hb⟩
  · have hsys' : s'.get_system "compost_heap" = some sys :=
      (get_system_congr s' s hss' "compost_heap").trans hsys
    exact ⟨_, (get_system_congr _ (addCompostBoost s') hsy "compost_heap").trans
      (addCompostBoost_get s' sys hsys'), List.mem_append_left _ hb⟩

/-- A step of the undertaker loop keeps the compost-heap system present. -/
theorem undertakerStep_sys_some (s : GameState) (uid : String) (sys : System)
    (hsys : s.get_system "compost_heap" = some sys) :
    ∃ sys', (undertakerStep s uid).1.get_system "compost_heap" = some sys' := by
  rcases undertakerStep_systems s uid with hsy | ⟨s', hsy, hss', _⟩
  · exact ⟨sys, (get_system_congr _ s hsy "compost_heap").trans hsys⟩
  · have hsys' : s'.get_system "compost_heap" = some sys :=
      (get_system_congr s' s hss' "compost_heap").trans hsys
    exact ⟨_, (get_system_congr _ (addCompostBoost s') hsy "compost_heap").trans
      (addCompostBoost_get s' sys hsys')⟩

/-- A step of the undertaker loop for one id does not change what a different
id finds among the entities. -/
theorem undertakerStep_find_ne (s : GameState) (uid x : String) (hx : x ≠ uid) :
    (undertakerStep s uid).1.entities.find? (fun e => e.id == x)
      = s.entities.find? (fun e => e.id == x) := by
  unfold undertakerStep
  cases hf : s.entities.find? (fun e => e.id == uid) with
  | none => rfl
  | some u =>
    have hid : u.id = uid := find?_id_eq _ _ _ hf
    dsimp only
    split
    · split
      · rw [addCompostBoost_map]
        dsimp only
        split
        all_goals
          rw [addCompostBoost_entities]
          dsimp only
          refine (find?_updateEntityFirst_ne _ uid x _ hx ?_).trans
            (find?_updateEntityFirst_ne s.entities uid x _ hx ?_) <;> exact hid
      · dsimp only
        refine find?_updateEntityFirst_ne s.entities uid x _ hx ?_
        exact hid
    · split
      · dsimp only
        refine find?_updateEntityFirst_ne s.entities uid x _ hx ?_
        exact hid
      · rfl

/-- The undertaker loop unrolled one id. -/
theorem undertakersLoop_cons (s : GameState) (uid : String) (rest : List String) :
    undertakersLoop s (uid :: rest)
      = ((undertakersLoop (undertakerStep s uid).1 rest).1,
         (undertakerStep s uid).2 ++ (undertakersLoop (undertakerStep s uid).1 rest).2) := by
  rcases h1 : undertakerStep s uid with ⟨s₁, evs⟩
  rcases h2 : undertakersLoop s₁ rest with ⟨s₂, evs'⟩
  simp only [undertakersLoop, h1, h2]

/-- With no compost tile, the whole undertaker loop changes neither the map,
the tick, nor the processed counter, and emits nothing. -/
theorem undertakersLoop_no_compost (ids : List String) (s : GameState)
    (h : s.map.get_tile "compost" = none) :
    (undertakersLoop s ids).1.map = s.map ∧
    (undertakersLoop s ids).1.tick = s.tick ∧
    (undertakersLoop s ids).1.graveyard.total_processed = s.graveyard.total_processed ∧
    (undertakersLoop s ids).2 = [] := by
  induction ids generalizing s with
  | nil => exact ⟨rfl, rfl, rfl, rfl⟩
  | cons uid rest ih =>
    obtain ⟨hm, ht, hg, he⟩ := undertakerStep_no_compost s uid h
    obtain ⟨hm', ht', hg', he'⟩ := ih (undertakerStep s uid).1 (by rw [hm]; exact h)
    rw [undertakersLoop_cons]
    exact ⟨hm'.trans hm, ht'.trans ht, hg'.trans hg, by rw [he, he']; rfl⟩

/-- Steps for ids other than `x` preserve both what `x` finds and any boost
already granted to the compost-heap system. -/
theorem undertakersLoop_preserve (ids : List String) (s : GameState) (x : String)
    (u' : Entity) (b : CorpseBoost) (sys : System)
    (hnotin : x ∉ ids)
    (hfind : s.entities.find? (fun e => e.id == x) = some u')
    (hsys : s.get_system "compost_heap" = some sys)
    (hb : b ∈ sys.corpse_boosts) :
    ((undertakersLoop s ids).1.entities.find? (fun e => e.id == x) = some u') ∧
    ∃ sys', (undertakersLoop s ids).1.get_system "compost_heap" = some sys' ∧
      b ∈ sys'.corpse_boosts := by
  induction ids generalizing s sys with
  | nil => exact ⟨hfind, sys, hsys, hb⟩
  | cons uid rest ih =>
    have hxne : x ≠ uid := fun heq => hnotin (heq ▸ List.mem_cons_self uid rest)
    have hnotin' : x ∉ rest := fun hx => hnotin (List.mem_cons_of_mem uid hx)
    have hfind' : (undertakerStep s uid).1.entities.find? (fun e => e.id == x)
        = some u' := by
      rw [undertakerStep_find_ne s uid x hxne]; exact hfind
    obtain ⟨sys₂, hsys₂, hb₂⟩ := undertakerStep_boost_mono s uid sys b hsys hb
    rw [undertakersLoop_cons]
    exact ih (undertakerStep s uid).1 sys₂ hnotin' hfind' hsys₂ hb₂

/-- A processing undertaker that reaches the processing duration on a tick
with no compost tile still returns to idle and still grants the compost-heap
system its nutrient boost. -/
theorem undertakerStep_completes_self (s : GameState) (u : Entity) (k : Nat)
    (sys : System)
    (hf : s.entities.find? (fun e => e.id == u.id) = some u)
    (hproc : u.processing_corpse = some true)
    (hticks : u.processing_ticks = some k)
    (hdone : CORPSE_PROCESSING_TICKS ≤ k + 1)
    (hnotile : s.map.get_tile "compost" = none)
    (hsys : s.get_system "compost_heap" = some sys) :
    (undertakerStep s u.id).1.entities.find? (fun e => e.id == u.id)
        = some { u with processing_corpse := some false, processing_ticks := some 0 } ∧
    (undertakerStep s u.id).1.get_system "compost_heap"
        = some { sys with corpse_boosts := sys.corpse_boosts ++
            [CorpseBoost.mk (s.tick + CORPSE_BOOST_DURATION) CORPSE_NUTRIENT_BOOST] } := by
  unfold undertakerStep
  rw [hf]
  dsimp only
  rw [hproc, hticks]
  dsimp only [Option.getD]
  rw [if_pos rfl, if_pos hdone]
  rw [addCompostBoost_map]
  dsimp only
  rw [hnotile]
  dsimp only
  constructor
  · rw [addCompostBoost_entities]
    dsimp only
    have h1 : (updateEntityFirst s.entities u.id
        { u with processing_corpse := some true, processing_ticks := some (k + 1)
        }).find? (fun e => e.id == u.id)
        = some { u with processing_corpse := some true, processing_ticks := some (k + 1) } :=
      find?_updateEntityFirst_self s.entities u.id u _ hf rfl
    exact find?_updateEntityFirst_self _ u.id _ _ h1 rfl
  · exact addCompostBoost_get _ sys hsys

/-- The undertaker loop, when the loop contains a completing undertaker's id,
leaves that undertaker idle and the boost granted, given distinct ids and no
compost tile. -/
theorem undertakersLoop_completes (ids : List String) (s : GameState) (u : Entity)
    (k : Nat) (sys : System)
    (hmem : u.id ∈ ids) (hnd : ids.Nodup)
    (hnotile : s.map.get_tile "compost" = none)
    (hfind : s.entities.find? (fun e => e.id == u.id) = some u)
    (hproc : u.processing_corpse = some true)
    (hticks : u.processing_ticks = some k)
    (hdone : CORPSE_PROCESSING_TICKS ≤ k + 1)
    (hsys : s.get_system "compost_heap" = some sys) :
    ((undertakersLoop s ids).1.entities.find? (fun e => e.id == u.id)
        = some { u with processing_corpse := some false, processing_ticks := some 0 }) ∧
    ∃ sys', (undertakersLoop s ids).1.get_system "compost_heap" = some sys' ∧
      CorpseBoost.mk (s.tick + CORPSE_BOOST_DURATION) CORPSE_NUTRIENT_BOOST
        ∈ sys'.corpse_boosts := by
  induction ids generalizing s sys with
  | nil => cases hmem
  | cons uid rest ih =>
    rw [undertakersLoop_cons]
    rcases List.mem_cons.mp hmem with heq | hmem'
    · subst heq
      obtain ⟨hf', hs'⟩ :=
        undertakerStep_completes_self s u k sys hfind hproc hticks hdone hnotile hsys
      have hnotin : u.id ∉ rest := (List.nodup_cons.mp hnd).1
      have hb : CorpseBoost.mk (s.tick + CORPSE_BOOST_DURATION) CORPSE_NUTRIENT_BOOST
          ∈ sys.corpse_boosts ++
            [CorpseBoost.mk (s.tick + CORPSE_BOOST_DURATION) CORPSE_NUTRIENT_BOOST] :=
        List.mem_append_right _ (List.mem_singleton.mpr rfl)
      exact undertakersLoop_preserve rest (undertakerStep s u.id).1 u.id _ _ _
        hnotin hf' hs' hb
    · have hne : u.id ≠ uid := by
        intro heq
        exact (List.nodup_cons.mp hnd).1 (heq ▸ hmem')
      have hf' : (undertakerStep s uid).1.entities.find? (fun e => e.id == u.id)
          = some u := by
        rw [undertakerStep_find_ne s uid u.id hne]; exact hfind
      have hmap' : (undertakerStep s uid).1.map.get_tile "compost" = none := by
        rw [(undertakerStep_no_compost s uid hnotile).1]; exact hnotile
      obtain ⟨sys₂, hsys₂⟩ := undertakerStep_sys_some s uid sys hsys
      have htick : (undertakerStep s uid).1.tick = s.tick :=
        (undertakerStep_no_compost s uid hnotile).2.1
      have := ih (undertakerStep s uid).1 sys₂ hmem' (List.nodup_cons.mp hnd).2
        hmap' hf' hsys₂
      rw [htick] at this
      exact this

/-- C10: if an undertaker completes corpse processing on a tick where the map
contains no tile with id "compost", the phase still adds the time-boxed
nutrient boost to the compost_heap system and returns the undertaker to idle,
but the graveyard's total_processed counter is not incremented and no
corpse-processed event (indeed no event at all) is emitted by the phase. -/
theorem undertaker_completion_without_compost_tile (s : GameState) (u : Entity)
    (k : Nat) (sys : System)
    (hnotile : s.map.get_tile "compost" = none)
    (hnd : (s.entities.map Entity.id).Nodup)
    (hmem : u ∈ s.entities)
    (hrole : u.role = some .undertaker)
    (hproc : u.processing_corpse = some true)
    (hticks : u.processing_ticks = some k)
    (hdone : CORPSE_PROCESSING_TICKS ≤ k + 1)
    (hsys : s.get_system "compost_heap" = some sys) :
    ((process_undertakers s).1.graveyard.total_processed
        = s.graveyard.total_processed) ∧
    ((process_undertakers s).2 = []) ∧
    (∃ u', u' ∈ (process_undertakers s).1.entities ∧ u'.id = u.id ∧
      u'.processing_corpse = some false ∧ u'.processing_ticks = some 0) ∧
    (∃ sys', (process_undertakers s).1.get_system "compost_heap" = some sys' ∧
      CorpseBoost.mk (s.tick + CORPSE_BOOST_DURATION) CORPSE_NUTRIENT_BOOST
        ∈ sys'.corpse_boosts) := by
  have hids_nodup :
      ((s.entities.filter fun e => e.role == some .undertaker).map Entity.id).Nodup :=
    hnd.sublist ((List.filter_sublist s.entities).map Entity.id)
  have hmem_f : u ∈ s.entities.filter fun e => e.role == some .undertaker :=
    List.mem_filter.mpr ⟨hmem, by simp [hrole]⟩
  have hmem_ids : u.id
      ∈ (s.entities.filter fun e => e.role == some .undertaker).map Entity.id :=
    List.mem_map_of_mem _ hmem_f
  have hfind : s.entities.find? (fun e => e.id == u.id) = some u :=
    find_entity_of_mem_nodup s.entities u hmem hnd
  have hloop := undertakersLoop_completes
    ((s.entities.filter fun e => e.role == some .undertaker).map Entity.id)
    s u k sys hmem_ids hids_nodup hnotile hfind hproc hticks hdone hsys
  have hframe := undertakersLoop_no_compost
    ((s.entities.filter fun e => e.role == some .undertaker).map Entity.id) s hnotile
  have hphase : process_undertakers s
      = undertakersLoop s
          ((s.entities.filter fun e => e.role == some .undertaker).map Entity.id) := by
    unfold process_undertakers
    rw [hnotile]
    rfl
  rw [hphase]
  refine ⟨hframe.2.2.1, hframe.2.2.2, ?_, hloop.2⟩
  exact ⟨_, List.mem_of_find?_eq_some hloop.1, find?_id_eq _ _ _ hloop.1, rfl, rfl⟩

/-- The C10 witness undertaker: one tick away from completing processing. -/
def undertakerW : Entity :=
  { Entity.new_undertaker "u1" "origin" with
    processing_corpse := some true
    processing_ticks := some 119 }

/-- The C10 witness snapshot: no compost tile, compost-heap system present. -/
def noCompostStateW : GameState :=
  { GameState.default with
    entities := [undertakerW]
    systems := [("compost_heap", System.new_generator "Compost Heap" [("nutrients", 1/100)])] }

/-- Witness for C10 at the concrete snapshot. -/
theorem undertaker_completion_without_compost_tile_witness :
    ((process_undertakers noCompostStateW).1.graveyard.total_processed
        = noCompostStateW.graveyard.total_processed) ∧
    ((process_undertakers noCompostStateW).2 = []) ∧
    (∃ u', u' ∈ (process_undertakers noCompostStateW).1.entities ∧ u'.id = undertakerW.id ∧
      u'.processing_corpse = some false ∧ u'.processing_ticks = some 0) ∧
    (∃ sys', (process_undertakers noCompostStateW).1.get_system "compost_heap" = some sys' ∧
      CorpseBoost.mk (noCompostStateW.tick + CORPSE_BOOST_DURATION) CORPSE_NUTRIENT_BOOST
        ∈ sys'.corpse_boosts) :=
  undertaker_completion_without_compost_tile noCompostStateW undertakerW 119
    (System.new_generator "Compost Heap" [("nutrients", 1/100)])
    rfl (by decide) (List.mem_singleton.mpr rfl) rfl rfl rfl (by decide) rfl

/-- Phase 1 does not touch the graveyard. -/
theorem process_actions_graveyard (s : GameState) :
    (process_actions s).1.graveyard = s.graveyard := by
  unfold process_actions
  rcases actionsLoop s.tick s.resources s.queues.actions with ⟨res, rem, evs⟩
  rfl

/-- Phase 2 does not touch the graveyard. -/
theorem process_systems_graveyard (s : GameState) :
    (process_systems s).1.graveyard = s.graveyard := by
  unfold process_systems
  rcases applyOperations s.tick s.resources (systemOperations s) with ⟨res, evs⟩
  rfl

/-- The phase-3 death step only ever adds ant corpses to the graveyard. -/
theorem entityDeathStep_graveyard (tick : Nat) (res : Resources) (gy : Graveyard)
    (e : Entity) (c : Corpse)
    (hc : c ∈ (entityDeathStep tick res gy e).2.2.1.corpses) :
    c ∈ gy.corpses ∨ c.entity_type = "ant" := by
  unfold entityDeathStep at hc
  split at hc
  · split at hc
    · exact Or.inl hc
    · next hvis =>
      rcases List.mem_append.mp hc with hin | hnew
      · exact Or.inl hin
      · right
        have : c = ⟨e.id, entityTypeLabel e.entity_type, tick, _, e.tile⟩ :=
          List.mem_singleton.mp hnew
        rw [this]
        cases het : e.entity_type with
        | ant => rfl
        | visitor => exact absurd het hvis
  · exact Or.inl hc

/-- The phase-3 loop only ever adds ant corpses to the graveyard. -/
theorem entitiesLoop_graveyard (tick : Nat) (res : Resources) (gy : Graveyard)
    (es : List Entity) (c : Corpse)
    (hc : c ∈ (entitiesLoop tick res gy es).2.1.corpses) :
    c ∈ gy.corpses ∨ c.entity_type = "ant" := by
  induction es generalizing res gy with
  | nil => exact Or.inl hc
  | cons e rest ih =>
    rw [entitiesLoop] at hc
    rcases hl : entityLifeStep tick res e with ⟨e', res', evs₁⟩
    rw [hl] at hc
    dsimp only at hc
    rcases hd : entityDeathStep tick res' gy e' with ⟨kept, res'', gy', evs₂⟩
    rw [hd] at hc
    dsimp only at hc
    rcases hr : entitiesLoop tick res'' gy' rest with ⟨res₃, gy₃, surv, evs₃⟩
    rw [hr] at hc
    dsimp only at hc
    have hc' : c ∈ (entitiesLoop tick res'' gy' rest).2.1.corpses := by
      rw [hr]; exact hc
    rcases ih res'' gy' hc' with hin | hant
    · have hin' : c ∈ (entityDeathStep tick res' gy e').2.2.1.corpses := by
        rw [hd]; exact hin
      exact entityDeathStep_graveyard tick res' gy e' c hin'
    · exact Or.inr hant

/-- Phase 3 only ever adds ant corpses to the graveyard. -/
theorem process_entities_graveyard (s : GameState) (c : Corpse)
    (hc : c ∈ (process_entities s).1.graveyard.corpses) :
    c ∈ s.graveyard.corpses ∨ c.entity_type = "ant" := by
  unfold process_entities at hc
  rcases hl : entitiesLoop s.tick s.resources s.graveyard s.entities
    with ⟨res, gy, surv, evs⟩
  rw [hl] at hc
  have hc' : c ∈ (entitiesLoop s.tick s.resources s.graveyard s.entities).2.1.corpses := by
    rw [hl]; exact hc
  exact entitiesLoop_graveyard _ _ _ _ _ hc'

/-- The compost-boost helper does not touch the graveyard (membership form). -/
theorem addCompostBoost_graveyard_mem (s : GameState) (c : Corpse)
    (hc : c ∈ (addCompostBoost s).graveyard.corpses) : c ∈ s.graveyard.corpses := by
  rw [addCompostBoost_graveyard] at hc
  exact hc

/-- One undertaker step never adds a corpse to the graveyard. -/
theorem undertakerStep_graveyard_mem (s : GameState) (uid : String) (c : Corpse)
    (hc : c ∈ (undertakerStep s uid).1.graveyard.corpses) : c ∈ s.graveyard.corpses := by
  unfold undertakerStep at hc
  cases hf : s.entities.find? (fun e => e.id == uid) with
  | none => rw [hf] at hc; exact hc
  | some u =>
    rw [hf] at hc
    dsimp only at hc
    split at hc
    · split at hc
      · split at hc
        · have hmem := addCompostBoost_graveyard_mem _ c hc
          exact hmem
        · have hmem := addCompostBoost_graveyard_mem _ c hc
          exact hmem
      · exact hc
    · split at hc
      · exact take_corpse_mem s.graveyard c hc
      · exact hc

/-- The whole undertaker loop never adds a corpse. -/
theorem undertakersLoop_graveyard_mem (ids : List String) (s : GameState) (c : Corpse)
    (hc : c ∈ (undertakersLoop s ids).1.graveyard.corpses) : c ∈ s.graveyard.corpses := by
  induction ids generalizing s with
  | nil => exact hc
  | cons uid rest ih =>
    rw [undertakersLoop_cons] at hc
    exact undertakerStep_graveyard_mem s uid c (ih (undertakerStep s uid).1 hc)

/-- Phase 4 never adds a corpse. -/
theorem process_undertakers_graveyard_mem (s : GameState) (c : Corpse)
    (hc : c ∈ (process_undertakers s).1.graveyard.corpses) : c ∈ s.graveyard.corpses := by
  unfold process_undertakers at hc
  split at hc
  · dsimp only at hc
    split at hc
    · exact hc
    · exact undertakersLoop_graveyard_mem _ s c hc
  · dsimp only at hc
    exact undertakersLoop_graveyard_mem _ s c hc

/-- Every corpse added by the blight kill loop has cause Blight and lies on
the compost tile. -/
theorem blightKillLoop_mem (tick : Nat) (gy : Graveyard) (es : List Entity) (c : Corpse)
    (hc : c ∈ (blightKillLoop tick gy es).2.1.corpses) :
    c ∈ gy.corpses ∨ (c.cause = DeathCause.blight ∧ c.tile = "compost") := by
  induction es generalizing gy with
  | nil => exact Or.inl hc
  | cons e rest ih =>
    rw [blightKillLoop] at hc
    split at hc
    · next htile =>
      dsimp only at hc
      rcases hr : blightKillLoop tick
          (gy.add_corpse ⟨e.id, entityTypeLabel e.entity_type, tick, .blight, e.tile⟩) rest
        with ⟨surv, gy', evs⟩
      rw [hr] at hc
      dsimp only at hc
      have hc' : c ∈ (blightKillLoop tick
          (gy.add_corpse ⟨e.id, entityTypeLabel e.entity_type, tick, .blight, e.tile⟩)
          rest).2.1.corpses := by
        rw [hr]; exact hc
      rcases ih _ hc' with hin | hbl
      · rcases List.mem_append.mp hin with hold | hnew
        · exact Or.inl hold
        · right
          have hceq : c = ⟨e.id, entityTypeLabel e.entity_type, tick, .blight, e.tile⟩ :=
            List.mem_singleton.mp hnew
          rw [hceq]
          exact ⟨rfl, htile⟩
      · exact Or.inr hbl
    · dsimp only at hc
      rcases hr : blightKillLoop tick gy rest with ⟨surv, gy', evs⟩
      rw [hr] at hc
      dsimp only at hc
      have hc' : c ∈ (blightKillLoop tick gy rest).2.1.corpses := by
        rw [hr]; exact hc
      exact ih gy hc'

/-- Phase 5 adds only Blight-cause corpses on the compost tile. -/
theorem process_blight_graveyard_mem (s : GameState) (rng : SeededRng) (c : Corpse)
    (hc : c ∈ (process_blight s rng).1.graveyard.corpses) :
    c ∈ s.graveyard.corpses ∨ (c.cause = DeathCause.blight ∧ c.tile = "compost") := by
  unfold process_blight at hc
  split at hc
  · exact Or.inl hc
  · next tl htl =>
    dsimp only at hc
    split at hc
    · rcases htb : tl.tick_blight with ⟨cleared, tl'⟩
      rw [htb] at hc
      dsimp only at hc
      split at hc
      · split at hc
        · exact Or.inl hc
        · exact Or.inl hc
      · exact Or.inl hc
    · split at hc
      · rcases hch : SeededRng.chance rng (tl.contamination.getD 0) with ⟨struck, rng'⟩
        rw [hch] at hc
        dsimp only at hc
        split at hc
        · split at hc
          all_goals
            dsimp only [GameState.set_system] at hc
            rcases hk : blightKillLoop s.tick s.graveyard s.entities with ⟨surv, gy', evs⟩
            rw [hk] at hc
            dsimp only at hc
            have hc' : c ∈ (blightKillLoop s.tick s.graveyard s.entities).2.1.corpses := by
              rw [hk]
              exact hc
            exact blightKillLoop_mem _ _ _ _ hc'
        · exact Or.inl hc
      · exact Or.inl hc

/-- Phase 6 does not touch the graveyard. -/
theorem process_queen_graveyard (eng : TickEngine) (s : GameState) (rng : SeededRng) :
    (process_queen eng s rng).2.1.graveyard = s.graveyard := by
  unfold process_queen
  split
  · rfl
  · dsimp only
    split
    · rfl
    · split
      · rfl
      · split
        · rfl
        · split
          · rfl
          · rfl

/-- The receiver-maintenance sub-routine does not touch the graveyard. -/
theorem check_receiver_maintenance_graveyard (s : GameState) :
    (check_receiver_maintenance s).1.graveyard = s.graveyard := by
  unfold check_receiver_maintenance
  split
  · rfl
  · dsimp only
    repeat' split
    all_goals rfl

/-- Phase 7 does not touch the graveyard. -/
theorem process_receiver_graveyard (eng : TickEngine) (s : GameState) (rng : SeededRng) :
    (process_receiver eng s rng).2.1.graveyard = s.graveyard := by
  unfold process_receiver
  split
  · rfl
  · rcases hm : check_receiver_maintenance s with ⟨s₁, evs⟩
    have hg : s₁.graveyard = s.graveyard := by
      have := check_receiver_maintenance_graveyard s
      rw [hm] at this
      exact this
    dsimp only
    repeat' split
    all_goals exact hg

/-- Phase 8 does not touch the graveyard. -/
theorem process_visitors_graveyard (s : GameState) :
    (process_visitors s).1.graveyard = s.graveyard := by
  unfold process_visitors
  rcases s.entities.foldl _ (s.resources, ([] : TickEvents)) with ⟨res, evs⟩
  rfl

/-- Phase 10 does not touch the graveyard. -/
theorem process_boredom_graveyard (s : GameState) :
    (process_boredom s).1.graveyard = s.graveyard := by
  unfold process_boredom
  split <;> (dsimp only; split <;> rfl)

set_option maxHeartbeats 1000000 in
/-- C2 (amended): across a whole tick, every corpse in the resulting graveyard
either was already there, or is an ant corpse (phase 3 never puts visitors in
the graveyard — dead visitors depart), or is a blight kill: cause Blight on
the compost tile, the one path that moves entities of any type — visitors
included — into the graveyard. -/
theorem visitor_corpse_only_by_blight (eng : TickEngine) (s : GameState) (c : Corpse)
    (hc : c ∈ (eng.tick s).2.1.graveyard.corpses) :
    c ∈ s.graveyard.corpses ∨ c.entity_type = "ant" ∨
      (c.cause = DeathCause.blight ∧ c.tile = "compost") := by
  unfold TickEngine.tick at hc
  dsimp only at hc
  rw [process_boredom_graveyard, process_visitors_graveyard, process_receiver_graveyard,
    process_queen_graveyard] at hc
  rcases process_blight_graveyard_mem _ _ c hc with hc4 | hbl
  · have hc3 := process_undertakers_graveyard_mem _ c hc4
    rcases process_entities_graveyard _ c hc3 with hc2 | hant
    · left
      rw [process_systems_graveyard, process_actions_graveyard] at hc2
      exact hc2
    · exact Or.inr (Or.inl hant)
  · exact Or.inr (Or.inr hbl)

/-- Witness for C2's amended theorem: the corpse produced by the blight kill
of the visitor on the compost tile. -/
theorem visitor_corpse_only_by_blight_witness :
    Corpse.mk "v1" "visitor" 1 DeathCause.blight "compost"
        ∈ visitorOnCompostState.graveyard.corpses ∨
    (Corpse.mk "v1" "visitor" 1 DeathCause.blight "compost").entity_type = "ant" ∨
    ((Corpse.mk "v1" "visitor" 1 DeathCause.blight "compost").cause = DeathCause.blight ∧
      (Corpse.mk "v1" "visitor" 1 DeathCause.blight "compost").tile = "compost") :=
  visitor_corpse_only_by_blight (TickEngine.new 0) visitorOnCompostState
    (Corpse.mk "v1" "visitor" 1 DeathCause.blight "compost")
    (by with_unfolding_all decide)

/-- An entity whose death check comes back clean has positive hunger. -/
theorem cause_none_hunger (e : Entity) (h : e.cause_of_death = none) : 0 < e.hunger := by
  unfold Entity.cause_of_death at h
  by_cases hh : e.hunger ≤ 0
  · rw [if_pos hh] at h; cases h
  · exact lt_of_not_le hh

/-- The death step keeps an entity only if its death check is clean. -/
theorem entityDeathStep_kept (tick : Nat) (res : Resources) (gy : Graveyard)
    (e : Entity) (e' : Entity)
    (h : (entityDeathStep tick res gy e).1 = some e') :
    e' = e ∧ e.cause_of_death = none := by
  unfold entityDeathStep at h
  split at h
  · split at h
    · cases h
    · cases h
  · next hnone => exact ⟨(Option.some.inj h).symm, hnone⟩

/-- Every entity surviving the phase-3 loop has positive hunger. -/
theorem entitiesLoop_survivors (tick : Nat) (res : Resources) (gy : Graveyard)
    (es : List Entity) :
    ∀ e' ∈ (entitiesLoop tick res gy es).2.2.1, 0 < e'.hunger := by
  induction es generalizing res gy with
  | nil => intro e' h; cases h
  | cons e rest ih =>
    intro e' h
    rw [entitiesLoop] at h
    rcases hl : entityLifeStep tick res e with ⟨e₁, res₁, evs₁⟩
    rw [hl] at h
    dsimp only at h
    rcases hd : entityDeathStep tick res₁ gy e₁ with ⟨kept, res₂, gy₂, evs₂⟩
    rw [hd] at h
    dsimp only at h
    rcases hr : entitiesLoop tick res₂ gy₂ rest with ⟨res₃, gy₃, surv, evs₃⟩
    rw [hr] at h
    dsimp only at h
    have hsurv : ∀ x ∈ surv, 0 < x.hunger := by
      intro x hx
      have hx' : x ∈ (entitiesLoop tick res₂ gy₂ rest).2.2.1 := by rw [hr]; exact hx
      exact ih res₂ gy₂ x hx'
    cases kept with
    | none => exact hsurv e' h
    | some e₂ =>
      rcases List.mem_cons.mp h with rfl | hmem
      · have hk : (entityDeathStep tick res₁ gy e₁).1 = some e' := by rw [hd]
        obtain ⟨heq, hnone⟩ := entityDeathStep_kept tick res₁ gy e₁ e' hk
        rw [heq]
        exact cause_none_hunger e₁ hnone
      · exact hsurv e' hmem

/-- The life step preserves id, tile and type, and cannot raise hunger above
the pre-decrement value plus the eating gain. -/
theorem entityLifeStep_fields (tick : Nat) (res : Resources) (e : Entity) :
    (entityLifeStep tick res e).1.id = e.id ∧
    (entityLifeStep tick res e).1.tile = e.tile ∧
    (entityLifeStep tick res e).1.entity_type = e.entity_type ∧
    (entityLifeStep tick res e).1.hunger
      ≤ e.hunger - e.hunger_rate + HUNGER_GAIN_FROM_EATING := by
  have hgain : (0 : Rat) ≤ HUNGER_GAIN_FROM_EATING := by norm_num [HUNGER_GAIN_FROM_EATING]
  have hgain2 : HUNGRY_HUNGER_GAIN ≤ HUNGER_GAIN_FROM_EATING := by
    norm_num [HUNGRY_HUNGER_GAIN, HUNGER_GAIN_FROM_EATING]
  have hbase : e.hunger - e.hunger_rate
      ≤ e.hunger - e.hunger_rate + HUNGER_GAIN_FROM_EATING :=
    le_add_of_nonneg_right hgain
  have hhungry : min (e.hunger - e.hunger_rate + HUNGRY_HUNGER_GAIN) MAX_HUNGER
      ≤ e.hunger - e.hunger_rate + HUNGER_GAIN_FROM_EATING :=
    le_trans (min_le_left _ _) (add_le_add_left hgain2 _)
  have hgen : min (e.hunger - e.hunger_rate + HUNGER_GAIN_FROM_EATING) MAX_HUNGER
      ≤ e.hunger - e.hunger_rate + HUNGER_GAIN_FROM_EATING :=
    min_le_left _ _
  unfold entityLifeStep
  dsimp only
  by_cases h1 : e.hunger - e.hunger_rate < HUNGER_THRESHOLD_EAT
  · rw [if_pos h1]
    cases hf : e.food with
    | none =>
      exact ⟨rfl, rfl, rfl, hbase⟩
    | some food =>
      dsimp only
      by_cases h3 : food = "influence" ∧ e.subtype = some VisitorType.hungry
      · rw [if_pos h3]
        by_cases h4 : HUNGRY_INFLUENCE_CONSUME ≤ res.get "influence"
        · rw [if_pos h4]
          by_cases h5 : e.transforms = some true
          · rw [if_pos h5]
            exact ⟨rfl, rfl, rfl, hhungry⟩
          · rw [if_neg h5]
            exact ⟨rfl, rfl, rfl, hhungry⟩
        · rw [if_neg h4]
          exact ⟨rfl, rfl, rfl, hbase⟩
      · rw [if_neg h3]
        by_cases h4 : (1 : Rat) ≤ res.get food
        · rw [if_pos h4]
          exact ⟨rfl, rfl, rfl, hgen⟩
        · rw [if_neg h4]
          exact ⟨rfl, rfl, rfl, hbase⟩
  · rw [if_neg h1]
    exact ⟨rfl, rfl, rfl, hbase⟩

/-- The death step on a starved ant removes it, records exactly one corpse
with cause Starvation, and emits exactly the entity-died event. -/
theorem entityDeathStep_ant_starves (tick : Nat) (res : Resources) (gy : Graveyard)
    (e : Entity) (hant : e.entity_type = EntityType.ant) (hh : e.hunger ≤ 0) :
    entityDeathStep tick res gy e
      = (none, res, gy.add_corpse ⟨e.id, "ant", tick, .starvation, e.tile⟩,
         [⟨tick, .entityDied e.id "ant" .starvation e.tile⟩]) := by
  have hcause : e.cause_of_death = some .starvation := by
    unfold Entity.cause_of_death
    rw [if_pos hh]
  unfold entityDeathStep
  rw [hcause]
  dsimp only
  rw [if_neg (by rw [hant]; intro hv; cases hv), hant]
  rfl

/-- Corpses already in the graveyard survive the phase-3 loop. -/
theorem entitiesLoop_graveyard_mono (tick : Nat) (res : Resources) (gy : Graveyard)
    (es : List Entity) (c : Corpse) (hc : c ∈ gy.corpses) :
    c ∈ (entitiesLoop tick res gy es).2.1.corpses := by
  induction es generalizing res gy with
  | nil => exact hc
  | cons e rest ih =>
    rw [entitiesLoop]
    rcases hl : entityLifeStep tick res e with ⟨e₁, res₁, evs₁⟩
    dsimp only
    rcases hd : entityDeathStep tick res₁ gy e₁ with ⟨kept, res₂, gy₂, evs₂⟩
    dsimp only
    rcases hr : entitiesLoop tick res₂ gy₂ rest with ⟨res₃, gy₃, surv, evs₃⟩
    dsimp only
    have hc₂ : c ∈ gy₂.corpses := by
      unfold entityDeathStep at hd
      split at hd
      · split at hd
        · cases hd; exact hc
        · cases hd; exact List.mem_append_left _ hc
      · cases hd; exact hc
    have : c ∈ (entitiesLoop tick res₂ gy₂ rest).2.1.corpses := ih res₂ gy₂ hc₂
    rw [hr] at this
    exact this

/-- The phase-3 loop on a list containing a starved ant (one whose hunger
cannot be rescued even by a full eating gain) buries it with cause Starvation
and emits the matching entity-died event. -/
theorem entitiesLoop_starved_ant (tick : Nat) (res : Resources) (gy : Graveyard)
    (es : List Entity) (e : Entity)
    (hmem : e ∈ es) (hant : e.entity_type = EntityType.ant)
    (hdoom : e.hunger - e.hunger_rate + HUNGER_GAIN_FROM_EATING ≤ 0) :
    (∃ c ∈ (entitiesLoop tick res gy es).2.1.corpses,
        c.entity_id = e.id ∧ c.cause = DeathCause.starvation ∧ c.death_tick = tick ∧
          c.tile = e.tile ∧ c.entity_type = "ant") ∧
    Event.mk tick (.entityDied e.id "ant" DeathCause.starvation e.tile)
      ∈ (entitiesLoop tick res gy es).2.2.2 := by
  induction es generalizing res gy with
  | nil => cases hmem
  | cons e₀ rest ih =>
    rw [entitiesLoop]
    rcases hl : entityLifeStep tick res e₀ with ⟨e₁, res₁, evs₁⟩
    dsimp only
    rcases List.mem_cons.mp hmem with heq | hmem'
    · subst heq
      obtain ⟨hid, htile, htype, hbound⟩ := entityLifeStep_fields tick res e
      rw [hl] at hid htile htype hbound
      dsimp only at hid htile htype hbound
      have hh : e₁.hunger ≤ 0 := le_trans hbound hdoom
      have hd := entityDeathStep_ant_starves tick res₁ gy e₁ (htype.trans hant) hh
      rw [hd]
      dsimp only
      rcases hr : entitiesLoop tick res₁
          (gy.add_corpse ⟨e₁.id, "ant", tick, .starvation, e₁.tile⟩) rest
        with ⟨res₃, gy₃, surv, evs₃⟩
      dsimp only
      constructor
      · have hin : (⟨e₁.id, "ant", tick, .starvation, e₁.tile⟩ : Corpse)
            ∈ (gy.add_corpse ⟨e₁.id, "ant", tick, .starvation, e₁.tile⟩).corpses :=
          List.mem_append_right _ (List.mem_singleton.mpr rfl)
        have := entitiesLoop_graveyard_mono tick res₁
          (gy.add_corpse ⟨e₁.id, "ant", tick, .starvation, e₁.tile⟩) rest _ hin
        rw [hr] at this
        exact ⟨_, this, hid, rfl, rfl, htile, rfl⟩
      · refine List.mem_append.mpr (Or.inl ?_)
        refine List.mem_append.mpr (Or.inr ?_)
        rw [hid, htile]
        exact List.mem_singleton.mpr rfl
    · rcases hd : entityDeathStep tick res₁ gy e₁ with ⟨kept, res₂, gy₂, evs₂⟩
      dsimp only
      obtain ⟨⟨c, hcmem, hcprops⟩, hev⟩ := ih res₂ gy₂ hmem'
      rcases hr : entitiesLoop tick res₂ gy₂ rest with ⟨res₃, gy₃, surv, evs₃⟩
      rw [hr] at hcmem hev
      dsimp only
      refine ⟨⟨c, hcmem, hcprops⟩, ?_⟩
      exact List.mem_append.mpr (Or.inr hev)

/-- C3 (amended): an entity whose hunger is ≤ 0 after phase 3's hunger
decrement and eating step is removed from the live list by the end of the
phase — concretely, every survivor has positive hunger, and any ant so starved
that even a full eating gain cannot lift it above zero is buried with a
Starvation corpse and an entity-died (Starvation) event. (An entity with
hunger ≤ 0 before the phase can instead eat and survive — see the
counterexample.) -/
theorem starvation_removes_and_buries (s : GameState) (e : Entity)
    (hmem : e ∈ s.entities) (hant : e.entity_type = EntityType.ant)
    (hdoom : e.hunger - e.hunger_rate + HUNGER_GAIN_FROM_EATING ≤ 0) :
    (∀ e' ∈ (process_entities s).1.entities, 0 < e'.hunger) ∧
    (∃ c ∈ (process_entities s).1.graveyard.corpses,
        c.entity_id = e.id ∧ c.cause = DeathCause.starvation ∧ c.death_tick = s.tick ∧
          c.tile = e.tile ∧ c.entity_type = "ant") ∧
    Event.mk s.tick (.entityDied e.id "ant" DeathCause.starvation e.tile)
      ∈ (process_entities s).2 := by
  unfold process_entities
  rcases hr : entitiesLoop s.tick s.resources s.graveyard s.entities
    with ⟨res, gy, surv, evs⟩
  dsimp only
  have hs := entitiesLoop_survivors s.tick s.resources s.graveyard s.entities
  have hd := entitiesLoop_starved_ant s.tick s.resources s.graveyard s.entities e
    hmem hant hdoom
  rw [hr] at hs hd
  exact ⟨hs, hd.1, hd.2⟩

/-- The C3 witness ant: hunger −31, beyond rescue by a single meal. -/
def doomedAnt : Entity := { Entity.new_worker "doomed" "origin" with hunger := -31 }

/-- The C3 witness snapshot (food available, but unable to save the ant). -/
def doomedAntState : GameState :=
  { GameState.default with
    entities := [doomedAnt]
    resources := Resources.new.set "fungus" 10 }

/-- Witness for C3's amended theorem at the concrete snapshot. -/
theorem starvation_removes_and_buries_witness :
    (∀ e' ∈ (process_entities doomedAntState).1.entities, 0 < e'.hunger) ∧
    (∃ c ∈ (process_entities doomedAntState).1.graveyard.corpses,
        c.entity_id = doomedAnt.id ∧ c.cause = DeathCause.starvation ∧
          c.death_tick = doomedAntState.tick ∧ c.tile = doomedAnt.tile ∧
          c.entity_type = "ant") ∧
    Event.mk doomedAntState.tick
        (.entityDied doomedAnt.id "ant" DeathCause.starvation doomedAnt.tile)
      ∈ (process_entities doomedAntState).2 :=
  starvation_removes_and_buries doomedAntState doomedAnt
    (List.mem_singleton.mpr rfl) rfl (by with_unfolding_all decide)

/-- Recogniser for a threshold-crossed event on a given resource and
threshold (the current-amount payload is unconstrained). -/
def isThresholdEv (r : String) (t : Rat) (ev : Event) : Bool :=
  match ev.kind with
  | .thresholdCrossed r' t' _ => decide (r' = r ∧ t' = t)
  | _ => false

/-- Every fixed resource threshold is positive. -/
theorem thresholds_pos : ∀ t ∈ RESOURCE_THRESHOLDS, (0 : Rat) < t := by
  with_unfolding_all decide

/-- A key absent from an association list has no binding. -/
theorem find?_eq_none_of_not_mem (l : RMap) (r : String)
    (h : r ∉ l.map Prod.fst) : RMap.find? l r = none := by
  induction l with
  | nil => rfl
  | cons a l ih =>
    obtain ⟨k, v⟩ := a
    simp only [List.map_cons, List.mem_cons, not_or] at h
    rw [RMap.find?, if_neg (fun he => h.1 he.symm)]
    exact ih h.2

/-- No threshold event for `t` arises from a threshold list avoiding `t`. -/
theorem countP_threshold_notmem (tick : Nat) (prev : RMap) (r r' : String)
    (v t : Rat) (l : List Rat) (hnot : ∀ x ∈ l, x ≠ t) :
    ((l.filter fun u => decide (prev.getv r' < u) && decide (u ≤ v)).map
        (fun u => (⟨tick, .thresholdCrossed r' u v⟩ : Event))).countP
      (isThresholdEv r t) = 0 := by
  rw [List.countP_eq_zero]
  intro ev hev
  obtain ⟨u, hu, rfl⟩ := List.mem_map.mp hev
  have humem := (List.mem_filter.mp hu).1
  simp only [isThresholdEv, decide_eq_true_eq]
  rintro ⟨-, h⟩
  exact hnot u humem h

/-- Counting threshold events for `t` over a duplicate-free threshold list
containing `t`: one exactly when the filter admits `t`. -/
theorem countP_threshold_list (tick : Nat) (prev : RMap) (r r' : String)
    (v t : Rat) (l : List Rat) (hnd : l.Nodup) (hmem : t ∈ l) :
    ((l.filter fun u => decide (prev.getv r' < u) && decide (u ≤ v)).map
        (fun u => (⟨tick, .thresholdCrossed r' u v⟩ : Event))).countP
      (isThresholdEv r t)
      = if r' = r ∧ prev.getv r < t ∧ t ≤ v then 1 else 0 := by
  induction l with
  | nil => cases hmem
  | cons a l ih =>
    have hanot := (List.nodup_cons.mp hnd).1
    have hnd' := (List.nodup_cons.mp hnd).2
    by_cases hat : a = t
    · subst hat
      have hnott : ∀ x ∈ l, x ≠ a := fun x hx he => hanot (he ▸ hx)
      by_cases hpa : (decide (prev.getv r' < a) && decide (a ≤ v)) = true
      · rw [List.filter_cons, if_pos hpa, List.map_cons, List.countP_cons,
          countP_threshold_notmem tick prev r r' v a l hnott]
        obtain ⟨hlt, hle⟩ : prev.getv r' < a ∧ a ≤ v := by
          simpa [decide_eq_true_eq] using hpa
        by_cases hr : r' = r
        · subst hr
          simp [isThresholdEv, hlt, hle]
        · have hhead : isThresholdEv r a ⟨tick, .thresholdCrossed r' a v⟩ = false := by
            simp [isThresholdEv, hr]
          rw [hhead]
          simp only [Bool.false_eq_true, if_false, Nat.add_zero]
          exact (if_neg (fun hc : r' = r ∧ prev.getv r < a ∧ a ≤ v => hr hc.1)).symm
      · rw [List.filter_cons, if_neg hpa,
          countP_threshold_notmem tick prev r r' v a l hnott]
        rw [if_neg]
        rintro ⟨hr, hlt, hle⟩
        subst hr
        exact hpa (by simp [hlt, hle])
    · have hmem' : t ∈ l := by
        rcases List.mem_cons.mp hmem with he | h
        · exact absurd he.symm hat
        · exact h
      by_cases hpa : (decide (prev.getv r' < a) && decide (a ≤ v)) = true
      · rw [List.filter_cons, if_pos hpa, List.map_cons, List.countP_cons]
        have hhead : isThresholdEv r t ⟨tick, .thresholdCrossed r' a v⟩ = false := by
          simp [isThresholdEv, hat]
        rw [hhead]
        simpa using ih hnd' hmem'
      · rw [List.filter_cons, if_neg hpa]
        exact ih hnd' hmem'

/-- Per-resource phase-9 emission count, matching `thresholdEventsFor`. -/
theorem countP_thresholdEventsFor (tick : Nat) (prev : RMap) (r r' : String)
    (t v : Rat) (ht : t ∈ RESOURCE_THRESHOLDS) :
    (thresholdEventsFor tick prev r' v).countP (isThresholdEv r t)
      = if r' = r ∧ prev.getv r < t ∧ t ≤ v then 1 else 0 := by
  unfold thresholdEventsFor
  exact countP_threshold_list tick prev r r' v t RESOURCE_THRESHOLDS
    (by with_unfolding_all decide) ht

/-- Counting threshold events across the phase-9 fold over the amounts list. -/
theorem countP_thresholds_fold (tick : Nat) (prev : RMap) (r : String) (t : Rat)
    (ht : t ∈ RESOURCE_THRESHOLDS) (l : RMap) (hnd : (l.map Prod.fst).Nodup) :
    (l.foldr (fun p acc => thresholdEventsFor tick prev p.1 p.2 ++ acc)
        []).countP (isThresholdEv r t)
      = if prev.getv r < t ∧ t ≤ RMap.getv l r then 1 else 0 := by
  induction l with
  | nil =>
    have hpos := thresholds_pos t ht
    rw [if_neg]
    · rfl
    · rintro ⟨-, hle⟩
      exact absurd hpos (not_lt.mpr hle)
  | cons a l ih =>
    obtain ⟨k, v⟩ := a
    have hknotin : k ∉ l.map Prod.fst := (List.nodup_cons.mp hnd).1
    have hnd' := (List.nodup_cons.mp hnd).2
    rw [List.foldr_cons, List.countP_append,
      countP_thresholdEventsFor tick prev r k t v ht, ih hnd']
    by_cases hk : k = r
    · subst hk
      have h1 : RMap.getv ((k, v) :: l) k = v := by
        rw [RMap.getv, RMap.find?, if_pos rfl]
      have h3 : RMap.getv l k = 0 := by
        rw [RMap.getv, find?_eq_none_of_not_mem l k hknotin]
      rw [h1, h3]
      have hpos := thresholds_pos t ht
      rw [if_neg (fun hc : prev.getv k < t ∧ t ≤ (0 : Rat) =>
        absurd hpos (not_lt.mpr hc.2))]
      by_cases hc : prev.getv k < t ∧ t ≤ v
      · rw [if_pos (show k = k ∧ prev.getv k < t ∧ t ≤ v from ⟨rfl, hc.1, hc.2⟩),
          if_pos hc]
      · rw [if_neg (fun h : k = k ∧ prev.getv k < t ∧ t ≤ v => hc ⟨h.2.1, h.2.2⟩),
          if_neg hc]
    · have h1 : RMap.getv ((k, v) :: l) r = RMap.getv l r := by
        rw [RMap.getv, RMap.find?, if_neg hk]
        rfl
      rw [h1, if_neg (fun h => hk h.1), Nat.zero_add]

/-- C7: in phase 9, for every resource and every fixed threshold
(10, 25, 50, 100, 250, 500, 1000), exactly one threshold-crossed event is
emitted when the threshold lies strictly above the pre-phase-1 amount and at
or below the current amount, and none otherwise — in particular none on a
downward crossing, and since the count depends only on the (prev, current)
pair, a threshold fires again after the resource drops below it and rises
past it once more. Stated under the unique-key invariant of the
HashMap-backed amounts. -/
theorem thresholds_fire_exactly_on_upward_crossing (s : GameState) (prev : RMap)
    (r : String) (t : Rat)
    (hnd : (s.resources.amounts.map Prod.fst).Nodup)
    (ht : t ∈ RESOURCE_THRESHOLDS) :
    (check_thresholds s prev).countP (isThresholdEv r t)
      = if prev.getv r < t ∧ t ≤ s.resources.get r then 1 else 0 := by
  unfold check_thresholds
  exact countP_thresholds_fold s.tick prev r t ht s.resources.amounts hnd

/-- The C7 witness snapshot: dirt currently at 10.1. -/
def thresholdCrossStateW : GameState :=
  { GameState.default with resources := Resources.new.set "dirt" (10.1 : Rat) }

/-- Witness for C7 at the spec's own example: dirt moving 9.9 → 10.1 fires
the 10 threshold exactly once and the 25 threshold not at all. -/
theorem thresholds_fire_exactly_on_upward_crossing_witness :
    (check_thresholds thresholdCrossStateW [("dirt", (9.9 : Rat))]).countP
        (isThresholdEv "dirt" 10) = 1 ∧
    (check_thresholds thresholdCrossStateW [("dirt", (9.9 : Rat))]).countP
        (isThresholdEv "dirt" 25) = 0 :=
  ⟨(thresholds_fire_exactly_on_upward_crossing thresholdCrossStateW
        [("dirt", (9.9 : Rat))] "dirt" 10 (by with_unfolding_all decide)
        (by with_unfolding_all decide)).trans (by with_unfolding_all decide),
   (thresholds_fire_exactly_on_upward_crossing thresholdCrossStateW
        [("dirt", (9.9 : Rat))] "dirt" 25 (by with_unfolding_all decide)
        (by with_unfolding_all decide)).trans (by with_unfolding_all decide)⟩

end Anthill
